import Mathlib

/-!
The binder service of update_engine, binder_service.cc.

A shallow embedding of `BinderUpdateEngineService` (src/binder_service.cc): the
generic dispatch adapter `CallCommonHandler`, the per-operation wrappers, and the
status-callback registry (`RegisterStatusCallback`, `UnregisterStatusCallback`,
`SendStatusUpdate`).

Conventions of the embedding.

* A C++ output parameter (`T* out`) is a slot: the callee receives the current
  content of the slot and hands back its content at return.  A wrapper therefore
  takes the caller's slot content as an argument and returns the new content.
* The backend object behind `common_` is a state `σ` together with its method
  table `UpdateEngineService σ`; the methods are arbitrary functions, so every
  statement below holds for every backend behaviour.
* Dereferencing a null `ErrorPtr` is undefined behaviour; a call that does so
  has no result (`none`).
* `int`, `int64_t` are `Int` (the file does no arithmetic on them); a `double`
  is its IEEE-754 binary64 bit pattern (the file only copies it).
* The remote calls made by `SendStatusUpdate`, the log lines and the death
  notification requests are returned as data.
* The string library is a parameter `StringLib` of every definition; `textLib`
  is the library with its C-string behaviour (a C string ends at its first NUL),
  and the statements about the content of a string are made for it.
-/

namespace chromeos_update_engine

/-! ## Library types used by the file -/

/-- The string library the file is compiled against: `std::string` (a Lean
`String`), C strings, and `android::String8` / `android::String16` with the
conversions the file calls.  The library is not part of the repository, so its
types and conversions are taken as given. -/
structure StringLib where
  /-- A `const char*`. -/
  CStr : Type
  /-- The type `android::String8`. -/
  String8 : Type
  /-- The type `android::String16`. -/
  String16 : Type
  /-- The method `std::string::c_str()`. -/
  c_str : String → CStr
  /-- The constructor `std::string{const char*}`. -/
  string : CStr → String
  /-- The constructor `String8{const char*}`. -/
  String8_of_cstr : CStr → String8
  /-- The constructor `String8{const String16&}`. -/
  String8_of_String16 : String16 → String8
  /-- The method `String8::string()`. -/
  String8_string : String8 → CStr
  /-- The constructor `String16{const char*}`. -/
  String16_of_cstr : CStr → String16

/-- A `double`, kept as its binary64 bit pattern. -/
structure Double where
  bits : Nat
deriving DecidableEq, Repr

/-- A `brillo::Error`; the file reads only `GetMessage()`. -/
structure Error where
  message : String
deriving DecidableEq, Repr

/-- A `brillo::ErrorPtr` (`std::unique_ptr<brillo::Error>`): null or an error. -/
abbrev ErrorPtr := Option Error

/-- An `android::binder::Status`, as far as the file builds one: `Status::ok()` or
`Status::fromServiceSpecificError(code, message)`. -/
inductive Status (L : StringLib) where
  | ok : Status L
  | fromServiceSpecificError (code : Int) (message : L.String8) : Status L

/-- The method `Status::isOk()`. -/
def Status.isOk {L : StringLib} : Status L → Bool
  | Status.ok => true
  | Status.fromServiceSpecificError _ _ => false

/-- An `android::brillo::ParcelableUpdateEngineStatus`. -/
structure ParcelableUpdateEngineStatus (L : StringLib) where
  last_checked_time_ : Int
  progress_ : Double
  current_operation_ : L.String16
  new_version_ : L.String16
  new_size_ : Int

/-- An `sp<IUpdateEngineStatusCallback>` holding a (non-null) callback object;
`get` is the raw pointer, by which the file identifies a callback. -/
structure sp where
  get : Nat
deriving DecidableEq, Repr

/-! ## The backend, `UpdateEngineService` -/

/-- What a backend method hands back: its `bool` result, the content of the
`ErrorPtr` it was given, the content of its output slots, and the backend state. -/
structure Outcome (O σ : Type) where
  ret : Bool
  error : ErrorPtr
  outs : O
  common : σ

/-- A backend method `bool (UpdateEngineService::*)(ErrorPtr*, Parameters...)`:
`I` are the by-value parameters, `O` the referents of the pointer parameters. -/
abbrev Handler (σ I O : Type) := σ → ErrorPtr → I → O → Outcome O σ

/-- The methods of `UpdateEngineService` that the file calls, with the
parameters the file passes them. -/
structure UpdateEngineService (σ : Type) where
  AttemptUpdate : Handler σ (String × String × Int) Unit
  AttemptRollback : Handler σ Bool Unit
  CanRollback : Handler σ Unit Bool
  ResetStatus : Handler σ Unit Unit
  GetStatus : Handler σ Unit (Int × Double × String × String × Int)
  RebootIfNeeded : Handler σ Unit Unit
  SetChannel : Handler σ (String × Bool) Unit
  GetChannel : Handler σ Bool String
  SetP2PUpdatePermission : Handler σ Bool Unit
  GetP2PUpdatePermission : Handler σ Unit Bool
  SetUpdateOverCellularPermission : Handler σ Bool Unit
  GetUpdateOverCellularPermission : Handler σ Unit Bool
  GetDurationSinceUpdate : Handler σ Unit Int
  GetPrevVersion : Handler σ Unit String
  GetRollbackPartition : Handler σ Unit String

/-! ## `BinderUpdateEngineService` -/

/-- The object: the backend `common_` and the registry `callbacks_`. -/
structure BinderUpdateEngineService (σ : Type) where
  common_ : σ
  callbacks_ : List sp

/-- The result of a wrapper: the returned `Status`, the content of the caller's
output slots, and the object afterwards. -/
abbrev Reply (L : StringLib) (O σ : Type) := Option (Status L × O × BinderUpdateEngineService σ)

/-- The function `string NormalString(const String16& in)`. -/
def NormalString (L : StringLib) (s : L.String16) : String :=
  L.string (L.String8_string (L.String8_of_String16 s))

/-- The function `Status ToStatus(ErrorPtr* error)`; `error->get()->GetMessage()` on a null
pointer is undefined. -/
def ToStatus (L : StringLib) (error : ErrorPtr) : Option (Status L) :=
  match error with
  | none => none
  | some e => some (Status.fromServiceSpecificError 1 (L.String8_of_cstr (L.c_str e.message)))

/-- The method `BinderUpdateEngineService::CallCommonHandler`: one call of `Handler` on
`common_` with a fresh null `ErrorPtr`. -/
def CallCommonHandler (L : StringLib) {σ I O : Type} (self : BinderUpdateEngineService σ)
    (Handler : Handler σ I O) (arguments : I) (outs : O) : Reply L O σ :=
  let error : ErrorPtr := none
  let r := Handler self.common_ error arguments outs
  let self := { self with common_ := r.common }
  if r.ret then some (Status.ok, r.outs, self)
  else
    match ToStatus L r.error with
    | none => none
    | some status => some (status, r.outs, self)

section wrappers

variable (L : StringLib) {σ : Type} (B : UpdateEngineService σ)

/-- The method `BinderUpdateEngineService::AttemptUpdate`. -/
def AttemptUpdate (self : BinderUpdateEngineService σ) (app_version omaha_url : L.String16)
    (flags : Int) : Reply L Unit σ :=
  CallCommonHandler L self B.AttemptUpdate
    (NormalString L app_version, NormalString L omaha_url, flags) ()

/-- The method `BinderUpdateEngineService::AttemptRollback`. -/
def AttemptRollback (self : BinderUpdateEngineService σ) (powerwash : Bool) : Reply L Unit σ :=
  CallCommonHandler L self B.AttemptRollback powerwash ()

/-- The method `BinderUpdateEngineService::CanRollback`. -/
def CanRollback (self : BinderUpdateEngineService σ) (out_can_rollback : Bool) :
    Reply L Bool σ :=
  CallCommonHandler L self B.CanRollback () out_can_rollback

/-- The method `BinderUpdateEngineService::ResetStatus`. -/
def ResetStatus (self : BinderUpdateEngineService σ) : Reply L Unit σ :=
  CallCommonHandler L self B.ResetStatus () ()

/-- The method `BinderUpdateEngineService::GetStatus`.  The three scalar fields of `status`
are handed to the backend directly; the two strings go through the locals
`current_op` and `new_version` and are stored only if `ret.isOk()`. -/
def GetStatus (self : BinderUpdateEngineService σ) (status : ParcelableUpdateEngineStatus L) :
    Reply L (ParcelableUpdateEngineStatus L) σ :=
  let current_op : String := ""
  let new_version : String := ""
  match CallCommonHandler L self B.GetStatus ()
      (status.last_checked_time_, status.progress_, current_op, new_version,
        status.new_size_) with
  | none => none
  | some (ret, (last_checked_time, progress, current_op, new_version, new_size), self) =>
    let status := { status with
      last_checked_time_ := last_checked_time, progress_ := progress, new_size_ := new_size }
    let status :=
      if ret.isOk then
        { status with
          current_operation_ := L.String16_of_cstr (L.c_str current_op),
          new_version_ := L.String16_of_cstr (L.c_str new_version) }
      else status
    some (ret, status, self)

/-- The method `BinderUpdateEngineService::RebootIfNeeded`. -/
def RebootIfNeeded (self : BinderUpdateEngineService σ) : Reply L Unit σ :=
  CallCommonHandler L self B.RebootIfNeeded () ()

/-- The method `BinderUpdateEngineService::SetChannel`. -/
def SetChannel (self : BinderUpdateEngineService σ) (target_channel : L.String16)
    (powerwash : Bool) : Reply L Unit σ :=
  CallCommonHandler L self B.SetChannel (NormalString L target_channel, powerwash) ()

/-- The method `BinderUpdateEngineService::GetChannel`: `*out_channel` is assigned whatever
`ret` is. -/
def GetChannel (self : BinderUpdateEngineService σ) (get_current_channel : Bool)
    (_out_channel : L.String16) : Reply L L.String16 σ :=
  let channel_string : String := ""
  match CallCommonHandler L self B.GetChannel get_current_channel channel_string with
  | none => none
  | some (ret, channel_string, self) =>
    let out_channel := L.String16_of_cstr (L.c_str channel_string)
    some (ret, out_channel, self)

/-- The method `BinderUpdateEngineService::SetP2PUpdatePermission`. -/
def SetP2PUpdatePermission (self : BinderUpdateEngineService σ) (enabled : Bool) :
    Reply L Unit σ :=
  CallCommonHandler L self B.SetP2PUpdatePermission enabled ()

/-- The method `BinderUpdateEngineService::GetP2PUpdatePermission`. -/
def GetP2PUpdatePermission (self : BinderUpdateEngineService σ) (out_p2p_permission : Bool) :
    Reply L Bool σ :=
  CallCommonHandler L self B.GetP2PUpdatePermission () out_p2p_permission

/-- The method `BinderUpdateEngineService::SetUpdateOverCellularPermission`. -/
def SetUpdateOverCellularPermission (self : BinderUpdateEngineService σ) (enabled : Bool) :
    Reply L Unit σ :=
  CallCommonHandler L self B.SetUpdateOverCellularPermission enabled ()

/-- The method `BinderUpdateEngineService::GetUpdateOverCellularPermission`. -/
def GetUpdateOverCellularPermission (self : BinderUpdateEngineService σ)
    (out_cellular_permission : Bool) : Reply L Bool σ :=
  CallCommonHandler L self B.GetUpdateOverCellularPermission () out_cellular_permission

/-- The method `BinderUpdateEngineService::GetDurationSinceUpdate`. -/
def GetDurationSinceUpdate (self : BinderUpdateEngineService σ) (out_duration : Int) :
    Reply L Int σ :=
  CallCommonHandler L self B.GetDurationSinceUpdate () out_duration

/-- The method `BinderUpdateEngineService::GetPrevVersion`: `*out_prev_version` is assigned
whatever `ret` is. -/
def GetPrevVersion (self : BinderUpdateEngineService σ) (_out_prev_version : L.String16) :
    Reply L L.String16 σ :=
  let version_string : String := ""
  match CallCommonHandler L self B.GetPrevVersion () version_string with
  | none => none
  | some (ret, version_string, self) =>
    let out_prev_version := L.String16_of_cstr (L.c_str version_string)
    some (ret, out_prev_version, self)

/-- The method `BinderUpdateEngineService::GetRollbackPartition`: `*out_rollback_partition`
is assigned only if `ret.isOk()`. -/
def GetRollbackPartition (self : BinderUpdateEngineService σ)
    (out_rollback_partition : L.String16) : Reply L L.String16 σ :=
  let partition_string : String := ""
  match CallCommonHandler L self B.GetRollbackPartition () partition_string with
  | none => none
  | some (ret, partition_string, self) =>
    let out_rollback_partition :=
      if ret.isOk then L.String16_of_cstr (L.c_str partition_string)
      else out_rollback_partition
    some (ret, out_rollback_partition, self)

end wrappers

/-! ## The callback registry -/

/-- One request made with `BinderWrapper::RegisterForDeathNotifications`: the
binder watched and the raw pointer bound, with `base::Unretained`, as the
argument of `UnregisterStatusCallback`. -/
structure DeathNotification where
  binder : sp
  callback : Nat
deriving DecidableEq, Repr

/-- The `android::BinderWrapper` singleton, as the requests it has received. -/
structure BinderWrapper where
  death_notifications : List DeathNotification
deriving DecidableEq, Repr

/-- Severity of a `LOG(...)` line. -/
inductive LogSeverity where
  | INFO
  | ERROR
deriving DecidableEq, Repr

/-- One call `callback->HandleStatusUpdate(...)` made on a registered callback. -/
structure HandleStatusUpdate (L : StringLib) where
  callback : sp
  last_checked_time : Int
  progress : Double
  current_operation : L.String16
  new_version : L.String16
  new_size : Int

/-- The method `BinderUpdateEngineService::RegisterStatusCallback`. -/
def RegisterStatusCallback (L : StringLib) {σ : Type} (self : BinderUpdateEngineService σ)
    (binder_wrapper : BinderWrapper) (callback : sp) :
    Status L × BinderUpdateEngineService σ × BinderWrapper :=
  let self := { self with callbacks_ := self.callbacks_ ++ [callback] }
  let binder_wrapper : BinderWrapper :=
    { death_notifications :=
        binder_wrapper.death_notifications ++ [{ binder := callback, callback := callback.get }] }
  (Status.ok, self, binder_wrapper)

/-- The scan `for (; it != callbacks_.end() && it->get() != callback; it++)` of
`UnregisterStatusCallback`: the distance of `it` from `begin()` when it stops. -/
def UnregisterStatusCallback.scan (callback : Nat) : List sp → Nat
  | [] => 0
  | it :: rest => if it.get ≠ callback then UnregisterStatusCallback.scan callback rest + 1 else 0

/-- The method `BinderUpdateEngineService::UnregisterStatusCallback`, with the line it logs. -/
def UnregisterStatusCallback {σ : Type} (self : BinderUpdateEngineService σ) (callback : Nat) :
    BinderUpdateEngineService σ × LogSeverity × String :=
  let it := UnregisterStatusCallback.scan callback self.callbacks_
  if it = self.callbacks_.length then
    (self, LogSeverity.ERROR, "Got death notification for unknown callback.")
  else
    ({ self with callbacks_ := self.callbacks_.eraseIdx it },
      LogSeverity.INFO, "Erasing orphan callback")

/-- The method `BinderUpdateEngineService::SendStatusUpdate`: the calls made, in order. -/
def SendStatusUpdate (L : StringLib) {σ : Type} (self : BinderUpdateEngineService σ)
    (in_last_checked_time : Int) (in_progress : Double)
    (in_current_operation in_new_version : String) (in_new_size : Int) :
    List (HandleStatusUpdate L) :=
  self.callbacks_.map fun callback =>
    { callback := callback,
      last_checked_time := in_last_checked_time,
      progress := in_progress,
      current_operation := L.String16_of_cstr (L.c_str in_current_operation),
      new_version := L.String16_of_cstr (L.c_str in_new_version),
      new_size := in_new_size }

/-! ## Vocabulary of the statements -/

/-- The returned `Status` of a wrapper call. -/
def Reply.status {L : StringLib} {O σ : Type} (r : Reply L O σ) : Option (Status L) :=
  r.map fun x => x.1

/-- The content of the caller's output slots after a wrapper call. -/
def Reply.outs {L : StringLib} {O σ : Type} (r : Reply L O σ) : Option O :=
  r.map fun x => x.2.1

/-- The backend method `H`, called the way `CallCommonHandler` calls it (on
`common_`, with a null `ErrorPtr`, arguments `i` and slots holding `o`), returns
`false` and leaves an error whose message is `M`. -/
def FailsWith {σ I O : Type} (self : BinderUpdateEngineService σ) (H : Handler σ I O)
    (i : I) (o : O) (M : String) : Prop :=
  (H self.common_ none i o).ret = false ∧ (H self.common_ none i o).error = some { message := M }

/-- The backend method `H`, called the way `CallCommonHandler` calls it, returns
`true`. -/
def Succeeds {σ I O : Type} (self : BinderUpdateEngineService σ) (H : Handler σ I O)
    (i : I) (o : O) : Prop :=
  (H self.common_ none i o).ret = true

/-- The content the backend method `H` leaves in its output slots when called the
way `CallCommonHandler` calls it. -/
def written {σ I O : Type} (self : BinderUpdateEngineService σ) (H : Handler σ I O)
    (i : I) (o : O) : O :=
  (H self.common_ none i o).outs

/-- The service-specific error with the fixed code 1 and the message `M`, as a
`String8`. -/
def serviceSpecificError (L : StringLib) (M : String) : Status L :=
  Status.fromServiceSpecificError 1 (L.String8_of_cstr (L.c_str M))

/-- Registering the callbacks of a list in turn: the statuses returned, the
object and the binder wrapper afterwards. -/
def registerAll (L : StringLib) {σ : Type} (self : BinderUpdateEngineService σ)
    (binder_wrapper : BinderWrapper) :
    List sp → List (Status L) × BinderUpdateEngineService σ × BinderWrapper
  | [] => ([], self, binder_wrapper)
  | callback :: rest =>
    let r := RegisterStatusCallback L self binder_wrapper callback
    let rs := registerAll L r.2.1 r.2.2 rest
    (r.1 :: rs.1, rs.2)

/-- What can happen to the registry after some point: a registration, a death
notification, or a status update to send. -/
inductive Event where
  | Register (callback : sp)
  | Death (callback : Nat)
  | Send (last_checked_time : Int) (progress : Double) (current_operation new_version : String)
      (new_size : Int)

/-- The object after a sequence of events, with all `HandleStatusUpdate` calls
made on the way, in order. -/
def run (L : StringLib) {σ : Type} (self : BinderUpdateEngineService σ)
    (binder_wrapper : BinderWrapper) :
    List Event → BinderUpdateEngineService σ × BinderWrapper × List (HandleStatusUpdate L)
  | [] => (self, binder_wrapper, [])
  | Event.Register callback :: rest =>
    let r := RegisterStatusCallback L self binder_wrapper callback
    run L r.2.1 r.2.2 rest
  | Event.Death callback :: rest =>
    run L (UnregisterStatusCallback self callback).1 binder_wrapper rest
  | Event.Send t p op v n :: rest =>
    let r := run L self binder_wrapper rest
    (r.1, r.2.1, SendStatusUpdate L self t p op v n ++ r.2.2)

/-! ## The string library, concretely -/

/-- The text of a C string: the characters before the first NUL. -/
def cut (s : String) : String :=
  String.mk (s.data.takeWhile fun c => c.val != 0)

/-- A string without a NUL character. -/
def NulFree (s : String) : Prop :=
  ∀ c ∈ s.data, c.val ≠ 0

/-- The string library with its C-string behaviour: a `const char*` is the buffer
it points to, `String8` and `String16` are the text they hold, and whoever reads
a C string (`String8{const char*}`, `String16{const char*}`,
`std::string{const char*}`) reads up to its first NUL. -/
def textLib : StringLib where
  CStr := String
  String8 := String
  String16 := String
  c_str := fun s => s
  string := cut
  String8_of_cstr := cut
  String8_of_String16 := fun s => s
  String8_string := fun s => s
  String16_of_cstr := cut

/-! ## Concrete data for the examples -/

/-- The double 0.5. -/
def Double.half : Double := { bits := 0x3FE0000000000000 }

/-- A backend whose every method writes into its output slots and then fails
with the message "no update in progress". -/
def failingBackend : UpdateEngineService Unit where
  AttemptUpdate := fun c _ _ o => ⟨false, some ⟨"no update in progress"⟩, o, c⟩
  AttemptRollback := fun c _ _ o => ⟨false, some ⟨"no update in progress"⟩, o, c⟩
  CanRollback := fun c _ _ _ => ⟨false, some ⟨"no update in progress"⟩, true, c⟩
  ResetStatus := fun c _ _ o => ⟨false, some ⟨"no update in progress"⟩, o, c⟩
  GetStatus := fun c _ _ _ =>
    ⟨false, some ⟨"no update in progress"⟩, (42, Double.half, "IDLE", "0.0.0", 7), c⟩
  RebootIfNeeded := fun c _ _ o => ⟨false, some ⟨"no update in progress"⟩, o, c⟩
  SetChannel := fun c _ _ o => ⟨false, some ⟨"no update in progress"⟩, o, c⟩
  GetChannel := fun c _ _ _ => ⟨false, some ⟨"no update in progress"⟩, "partial", c⟩
  SetP2PUpdatePermission := fun c _ _ o => ⟨false, some ⟨"no update in progress"⟩, o, c⟩
  GetP2PUpdatePermission := fun c _ _ _ => ⟨false, some ⟨"no update in progress"⟩, true, c⟩
  SetUpdateOverCellularPermission := fun c _ _ o => ⟨false, some ⟨"no update in progress"⟩, o, c⟩
  GetUpdateOverCellularPermission := fun c _ _ _ =>
    ⟨false, some ⟨"no update in progress"⟩, true, c⟩
  GetDurationSinceUpdate := fun c _ _ _ => ⟨false, some ⟨"no update in progress"⟩, 9, c⟩
  GetPrevVersion := fun c _ _ _ => ⟨false, some ⟨"no update in progress"⟩, "partial", c⟩
  GetRollbackPartition := fun c _ _ _ => ⟨false, some ⟨"no update in progress"⟩, "partial", c⟩

/-- A backend whose every method succeeds; the channel is "stable-channel" when
the current channel is asked for. -/
def workingBackend : UpdateEngineService Unit where
  AttemptUpdate := fun c e _ o => ⟨true, e, o, c⟩
  AttemptRollback := fun c e _ o => ⟨true, e, o, c⟩
  CanRollback := fun c e _ _ => ⟨true, e, true, c⟩
  ResetStatus := fun c e _ o => ⟨true, e, o, c⟩
  GetStatus := fun c e _ _ => ⟨true, e, (100, Double.half, "DOWNLOADING", "1.2.3", 5000), c⟩
  RebootIfNeeded := fun c e _ o => ⟨true, e, o, c⟩
  SetChannel := fun c e _ o => ⟨true, e, o, c⟩
  GetChannel := fun c e get_current_channel _ =>
    ⟨true, e, if get_current_channel then "stable-channel" else "beta-channel", c⟩
  SetP2PUpdatePermission := fun c e _ o => ⟨true, e, o, c⟩
  GetP2PUpdatePermission := fun c e _ _ => ⟨true, e, true, c⟩
  SetUpdateOverCellularPermission := fun c e _ o => ⟨true, e, o, c⟩
  GetUpdateOverCellularPermission := fun c e _ _ => ⟨true, e, false, c⟩
  GetDurationSinceUpdate := fun c e _ _ => ⟨true, e, 3600000000, c⟩
  GetPrevVersion := fun c e _ _ => ⟨true, e, "1.2.2", c⟩
  GetRollbackPartition := fun c e _ _ => ⟨true, e, "/dev/sda3", c⟩

/-- A backend whose strings carry a NUL character.  While its state is `true`
every method succeeds and the string outputs hold a NUL; while it is `false`
every method fails with an error whose message holds a NUL. -/
def nulBackend : UpdateEngineService Bool where
  AttemptUpdate := fun c e _ o =>
    if c then ⟨true, e, o, c⟩ else ⟨false, some ⟨"bad\x00hidden"⟩, o, c⟩
  AttemptRollback := fun c e _ o =>
    if c then ⟨true, e, o, c⟩ else ⟨false, some ⟨"bad\x00hidden"⟩, o, c⟩
  CanRollback := fun c e _ o =>
    if c then ⟨true, e, true, c⟩ else ⟨false, some ⟨"bad\x00hidden"⟩, o, c⟩
  ResetStatus := fun c e _ o =>
    if c then ⟨true, e, o, c⟩ else ⟨false, some ⟨"bad\x00hidden"⟩, o, c⟩
  GetStatus := fun c e _ o =>
    if c then ⟨true, e, (100, Double.half, "DOWN\x00LOADING", "1.2\x00.3", 5000), c⟩
    else ⟨false, some ⟨"bad\x00hidden"⟩, o, c⟩
  RebootIfNeeded := fun c e _ o =>
    if c then ⟨true, e, o, c⟩ else ⟨false, some ⟨"bad\x00hidden"⟩, o, c⟩
  SetChannel := fun c e _ o =>
    if c then ⟨true, e, o, c⟩ else ⟨false, some ⟨"bad\x00hidden"⟩, o, c⟩
  GetChannel := fun c e _ o =>
    if c then ⟨true, e, "stable\x00-channel", c⟩ else ⟨false, some ⟨"bad\x00hidden"⟩, o, c⟩
  SetP2PUpdatePermission := fun c e _ o =>
    if c then ⟨true, e, o, c⟩ else ⟨false, some ⟨"bad\x00hidden"⟩, o, c⟩
  GetP2PUpdatePermission := fun c e _ o =>
    if c then ⟨true, e, true, c⟩ else ⟨false, some ⟨"bad\x00hidden"⟩, o, c⟩
  SetUpdateOverCellularPermission := fun c e _ o =>
    if c then ⟨true, e, o, c⟩ else ⟨false, some ⟨"bad\x00hidden"⟩, o, c⟩
  GetUpdateOverCellularPermission := fun c e _ o =>
    if c then ⟨true, e, true, c⟩ else ⟨false, some ⟨"bad\x00hidden"⟩, o, c⟩
  GetDurationSinceUpdate := fun c e _ o =>
    if c then ⟨true, e, 1, c⟩ else ⟨false, some ⟨"bad\x00hidden"⟩, o, c⟩
  GetPrevVersion := fun c e _ o =>
    if c then ⟨true, e, "1.2\x00.2", c⟩ else ⟨false, some ⟨"bad\x00hidden"⟩, o, c⟩
  GetRollbackPartition := fun c e _ o =>
    if c then ⟨true, e, "/dev\x00/sda3", c⟩ else ⟨false, some ⟨"bad\x00hidden"⟩, o, c⟩

/-- An object, with no callbacks, over `nulBackend` in the given state. -/
def nulService (working : Bool) : BinderUpdateEngineService Bool :=
  { common_ := working, callbacks_ := [] }

/-- An object with no callbacks registered. -/
def emptyService : BinderUpdateEngineService Unit := { common_ := (), callbacks_ := [] }

/-- A binder wrapper that has received no request. -/
def noWatches : BinderWrapper := { death_notifications := [] }

/-- Three distinct callbacks. -/
def callbackA : sp := { get := 0xA000 }

/-- The second of three distinct callbacks. -/
def callbackB : sp := { get := 0xB000 }

/-- The third of three distinct callbacks. -/
def callbackC : sp := { get := 0xC000 }

/-- A caller's status object before a call. -/
def staleStatus : ParcelableUpdateEngineStatus textLib :=
  { last_checked_time_ := 1, progress_ := { bits := 0 }, current_operation_ := "old-op",
    new_version_ := "old-version", new_size_ := 2 }

/-! ## Reading a C string -/

/-- A string without NUL is read whole. -/
theorem cut_of_NulFree (s : String) (h : NulFree s) : cut s = s := by
  have ht : (s.data.takeWhile fun c => c.val != 0) = s.data := by
    apply List.takeWhile_eq_self_iff.2
    intro c hc
    simpa using h c hc
  unfold cut
  rw [ht]

/-- What is read of a string is its beginning. -/
theorem cut_prefix (s : String) : (cut s).data <+: s.data :=
  List.takeWhile_prefix _

/-- What is read of a string has no NUL. -/
theorem NulFree_cut (s : String) : NulFree (cut s) := by
  intro c hc
  have := List.mem_takeWhile_imp hc
  simpa using this

/-! ## The dispatch adapter -/

/-- A failing backend method makes `CallCommonHandler` return the service-specific
error; the slots and the backend state are what the method left. -/
theorem CallCommonHandler_of_fails (L : StringLib) {σ I O : Type}
    (self : BinderUpdateEngineService σ) (H : Handler σ I O) (i : I) (o : O) (M : String)
    (h : FailsWith self H i o M) :
    CallCommonHandler L self H i o =
      some (serviceSpecificError L M, written self H i o,
        { self with common_ := (H self.common_ none i o).common }) := by
  obtain ⟨hret, herr⟩ := h
  simp [CallCommonHandler, ToStatus, serviceSpecificError, written, hret, herr]

/-- A succeeding backend method makes `CallCommonHandler` return `Status::ok()`;
the slots and the backend state are what the method left. -/
theorem CallCommonHandler_of_succeeds (L : StringLib) {σ I O : Type}
    (self : BinderUpdateEngineService σ) (H : Handler σ I O) (i : I) (o : O)
    (h : Succeeds self H i o) :
    CallCommonHandler L self H i o =
      some (Status.ok, written self H i o,
        { self with common_ := (H self.common_ none i o).common }) := by
  have hret : (H self.common_ none i o).ret = true := h
  simp [CallCommonHandler, written, hret]

theorem serviceSpecificError_isOk (L : StringLib) (M : String) :
    (serviceSpecificError L M).isOk = false := rfl

/-- Whatever the string library: if the backend method, called with the
arguments the wrapper passes it, returns failure and leaves an error with message
`M`, the wrapper returns the service-specific error with code 1 and message
`String8{M.c_str()}`; that status is not `ok`. -/
theorem failure_status_in_any_library (L : StringLib) {σ : Type}
    (B : UpdateEngineService σ) (self : BinderUpdateEngineService σ) (M : String) :
    (∀ app_version omaha_url flags,
      FailsWith self B.AttemptUpdate
          (NormalString L app_version, NormalString L omaha_url, flags) () M →
        (AttemptUpdate L B self app_version omaha_url flags).status =
          some (Status.fromServiceSpecificError 1 (L.String8_of_cstr (L.c_str M)))) ∧
    (∀ powerwash, FailsWith self B.AttemptRollback powerwash () M →
        (AttemptRollback L B self powerwash).status =
          some (Status.fromServiceSpecificError 1 (L.String8_of_cstr (L.c_str M)))) ∧
    (∀ out, FailsWith self B.CanRollback () out M →
        (CanRollback L B self out).status =
          some (Status.fromServiceSpecificError 1 (L.String8_of_cstr (L.c_str M)))) ∧
    (FailsWith self B.ResetStatus () () M →
        (ResetStatus L B self).status =
          some (Status.fromServiceSpecificError 1 (L.String8_of_cstr (L.c_str M)))) ∧
    (∀ status : ParcelableUpdateEngineStatus L,
      FailsWith self B.GetStatus ()
          (status.last_checked_time_, status.progress_, "", "", status.new_size_) M →
        (GetStatus L B self status).status =
          some (Status.fromServiceSpecificError 1 (L.String8_of_cstr (L.c_str M)))) ∧
    (FailsWith self B.RebootIfNeeded () () M →
        (RebootIfNeeded L B self).status =
          some (Status.fromServiceSpecificError 1 (L.String8_of_cstr (L.c_str M)))) ∧
    (∀ target_channel powerwash,
      FailsWith self B.SetChannel (NormalString L target_channel, powerwash) () M →
        (SetChannel L B self target_channel powerwash).status =
          some (Status.fromServiceSpecificError 1 (L.String8_of_cstr (L.c_str M)))) ∧
    (∀ get_current_channel out, FailsWith self B.GetChannel get_current_channel "" M →
        (GetChannel L B self get_current_channel out).status =
          some (Status.fromServiceSpecificError 1 (L.String8_of_cstr (L.c_str M)))) ∧
    (∀ enabled, FailsWith self B.SetP2PUpdatePermission enabled () M →
        (SetP2PUpdatePermission L B self enabled).status =
          some (Status.fromServiceSpecificError 1 (L.String8_of_cstr (L.c_str M)))) ∧
    (∀ out, FailsWith self B.GetP2PUpdatePermission () out M →
        (GetP2PUpdatePermission L B self out).status =
          some (Status.fromServiceSpecificError 1 (L.String8_of_cstr (L.c_str M)))) ∧
    (∀ enabled, FailsWith self B.SetUpdateOverCellularPermission enabled () M →
        (SetUpdateOverCellularPermission L B self enabled).status =
          some (Status.fromServiceSpecificError 1 (L.String8_of_cstr (L.c_str M)))) ∧
    (∀ out, FailsWith self B.GetUpdateOverCellularPermission () out M →
        (GetUpdateOverCellularPermission L B self out).status =
          some (Status.fromServiceSpecificError 1 (L.String8_of_cstr (L.c_str M)))) ∧
    (∀ out, FailsWith self B.GetDurationSinceUpdate () out M →
        (GetDurationSinceUpdate L B self out).status =
          some (Status.fromServiceSpecificError 1 (L.String8_of_cstr (L.c_str M)))) ∧
    (∀ out, FailsWith self B.GetPrevVersion () "" M →
        (GetPrevVersion L B self out).status =
          some (Status.fromServiceSpecificError 1 (L.String8_of_cstr (L.c_str M)))) ∧
    (∀ out, FailsWith self B.GetRollbackPartition () "" M →
        (GetRollbackPartition L B self out).status =
          some (Status.fromServiceSpecificError 1 (L.String8_of_cstr (L.c_str M)))) ∧
    (Status.fromServiceSpecificError 1 (L.String8_of_cstr (L.c_str M)) : Status L).isOk = false ∧
    (Status.fromServiceSpecificError 1 (L.String8_of_cstr (L.c_str M)) : Status L) ≠ Status.ok := by
  refine ⟨?_, ?_, ?_, ?_, ?_, ?_, ?_, ?_, ?_, ?_, ?_, ?_, ?_, ?_, ?_, rfl, ?_⟩
  · intro a u f h
    simp [AttemptUpdate, Reply.status, CallCommonHandler_of_fails L _ _ _ _ M h,
      serviceSpecificError]
  · intro a h
    simp [AttemptRollback, Reply.status, CallCommonHandler_of_fails L _ _ _ _ M h,
      serviceSpecificError]
  · intro a h
    simp [CanRollback, Reply.status, CallCommonHandler_of_fails L _ _ _ _ M h,
      serviceSpecificError]
  · intro h
    simp [ResetStatus, Reply.status, CallCommonHandler_of_fails L _ _ _ _ M h,
      serviceSpecificError]
  · intro a h
    simp [GetStatus, Reply.status, CallCommonHandler_of_fails L _ _ _ _ M h,
      serviceSpecificError]
  · intro h
    simp [RebootIfNeeded, Reply.status, CallCommonHandler_of_fails L _ _ _ _ M h,
      serviceSpecificError]
  · intro a b h
    simp [SetChannel, Reply.status, CallCommonHandler_of_fails L _ _ _ _ M h,
      serviceSpecificError]
  · intro a b h
    simp [GetChannel, Reply.status, CallCommonHandler_of_fails L _ _ _ _ M h,
      serviceSpecificError]
  · intro a h
    simp [SetP2PUpdatePermission, Reply.status, CallCommonHandler_of_fails L _ _ _ _ M h,
      serviceSpecificError]
  · intro a h
    simp [GetP2PUpdatePermission, Reply.status, CallCommonHandler_of_fails L _ _ _ _ M h,
      serviceSpecificError]
  · intro a h
    simp [SetUpdateOverCellularPermission, Reply.status,
      CallCommonHandler_of_fails L _ _ _ _ M h, serviceSpecificError]
  · intro a h
    simp [GetUpdateOverCellularPermission, Reply.status,
      CallCommonHandler_of_fails L _ _ _ _ M h, serviceSpecificError]
  · intro a h
    simp [GetDurationSinceUpdate, Reply.status, CallCommonHandler_of_fails L _ _ _ _ M h,
      serviceSpecificError]
  · intro a h
    simp [GetPrevVersion, Reply.status, CallCommonHandler_of_fails L _ _ _ _ M h,
      serviceSpecificError]
  · intro a h
    simp [GetRollbackPartition, Reply.status, CallCommonHandler_of_fails L _ _ _ _ M h,
      serviceSpecificError]
  · intro h
    cases h

/-- C1 as stated fails for a message with a NUL character: `nulBackend` fails
with the message "bad\x00hidden", and the wrappers return the service-specific
error with code 1 and message "bad", which is not that message. -/
theorem backend_failure_message_is_cut_at_nul :
    FailsWith (nulService false) nulBackend.ResetStatus () () "bad\x00hidden" ∧
    (ResetStatus textLib nulBackend (nulService false)).status =
      some (Status.fromServiceSpecificError 1 "bad" : Status textLib) ∧
    (ResetStatus textLib nulBackend (nulService false)).status ≠
      some (Status.fromServiceSpecificError 1 "bad\x00hidden" : Status textLib) ∧
    FailsWith (nulService false) nulBackend.GetStatus ()
        (staleStatus.last_checked_time_, staleStatus.progress_, "", "", staleStatus.new_size_)
        "bad\x00hidden" ∧
    (GetStatus textLib nulBackend (nulService false) staleStatus).status =
      some (Status.fromServiceSpecificError 1 "bad" : Status textLib) := by
  refine ⟨⟨rfl, rfl⟩, rfl, ?_, ⟨rfl, rfl⟩, rfl⟩
  intro h
  have h1 : (some (Status.fromServiceSpecificError 1 "bad") : Option (Status textLib)) =
      some (Status.fromServiceSpecificError 1 "bad\x00hidden") := h
  injection h1 with h2
  injection h2 with _ h3
  have h4 : ("bad" : String) = "bad\x00hidden" := h3
  revert h4
  decide

/-- C1, amended. For each of the fifteen operations and every backend: if the
backend method, called with the arguments the wrapper passes it, returns failure
and leaves an error with message `M`, the wrapper returns the service-specific
error with code 1 whose message is `M` read as a C string, that is `M` up to its
first NUL character: exactly `M` when `M` has no NUL, a beginning of `M`
otherwise.  That status is not `ok`. -/
theorem backend_failure_is_service_specific_error {σ : Type}
    (B : UpdateEngineService σ) (self : BinderUpdateEngineService σ) (M : String) :
    (∀ app_version omaha_url flags,
      FailsWith self B.AttemptUpdate
          (NormalString textLib app_version, NormalString textLib omaha_url, flags) () M →
        (AttemptUpdate textLib B self app_version omaha_url flags).status =
          some (Status.fromServiceSpecificError 1 (cut M))) ∧
    (∀ powerwash, FailsWith self B.AttemptRollback powerwash () M →
        (AttemptRollback textLib B self powerwash).status =
          some (Status.fromServiceSpecificError 1 (cut M))) ∧
    (∀ out, FailsWith self B.CanRollback () out M →
        (CanRollback textLib B self out).status =
          some (Status.fromServiceSpecificError 1 (cut M))) ∧
    (FailsWith self B.ResetStatus () () M →
        (ResetStatus textLib B self).status =
          some (Status.fromServiceSpecificError 1 (cut M))) ∧
    (∀ status : ParcelableUpdateEngineStatus textLib,
      FailsWith self B.GetStatus ()
          (status.last_checked_time_, status.progress_, "", "", status.new_size_) M →
        (GetStatus textLib B self status).status =
          some (Status.fromServiceSpecificError 1 (cut M))) ∧
    (FailsWith self B.RebootIfNeeded () () M →
        (RebootIfNeeded textLib B self).status =
          some (Status.fromServiceSpecificError 1 (cut M))) ∧
    (∀ target_channel powerwash,
      FailsWith self B.SetChannel (NormalString textLib target_channel, powerwash) () M →
        (SetChannel textLib B self target_channel powerwash).status =
          some (Status.fromServiceSpecificError 1 (cut M))) ∧
    (∀ get_current_channel out, FailsWith self B.GetChannel get_current_channel "" M →
        (GetChannel textLib B self get_current_channel out).status =
          some (Status.fromServiceSpecificError 1 (cut M))) ∧
    (∀ enabled, FailsWith self B.SetP2PUpdatePermission enabled () M →
        (SetP2PUpdatePermission textLib B self enabled).status =
          some (Status.fromServiceSpecificError 1 (cut M))) ∧
    (∀ out, FailsWith self B.GetP2PUpdatePermission () out M →
        (GetP2PUpdatePermission textLib B self out).status =
          some (Status.fromServiceSpecificError 1 (cut M))) ∧
    (∀ enabled, FailsWith self B.SetUpdateOverCellularPermission enabled () M →
        (SetUpdateOverCellularPermission textLib B self enabled).status =
          some (Status.fromServiceSpecificError 1 (cut M))) ∧
    (∀ out, FailsWith self B.GetUpdateOverCellularPermission () out M →
        (GetUpdateOverCellularPermission textLib B self out).status =
          some (Status.fromServiceSpecificError 1 (cut M))) ∧
    (∀ out, FailsWith self B.GetDurationSinceUpdate () out M →
        (GetDurationSinceUpdate textLib B self out).status =
          some (Status.fromServiceSpecificError 1 (cut M))) ∧
    (∀ out, FailsWith self B.GetPrevVersion () "" M →
        (GetPrevVersion textLib B self out).status =
          some (Status.fromServiceSpecificError 1 (cut M))) ∧
    (∀ out, FailsWith self B.GetRollbackPartition () "" M →
        (GetRollbackPartition textLib B self out).status =
          some (Status.fromServiceSpecificError 1 (cut M))) ∧
    (NulFree M → cut M = M) ∧
    (cut M).data <+: M.data ∧
    (Status.fromServiceSpecificError 1 (cut M) : Status textLib).isOk = false ∧
    (Status.fromServiceSpecificError 1 (cut M) : Status textLib) ≠ Status.ok := by
  obtain ⟨h1, h2, h3, h4, h5, h6, h7, h8, h9, h10, h11, h12, h13, h14, h15, hok, hne⟩ :=
    failure_status_in_any_library textLib B self M
  exact ⟨h1, h2, h3, h4, h5, h6, h7, h8, h9, h10, h11, h12, h13, h14, h15,
    cut_of_NulFree M, cut_prefix M, hok, hne⟩

/-- C1, evaluated: against a backend whose every method fails with the message
"no update in progress", each of the fifteen wrappers returns the
service-specific error with code 1 and that message. -/
theorem backend_failure_is_service_specific_error_witness :
    (AttemptUpdate textLib failingBackend emptyService "1.0" "https://omaha" 0).status =
        some (Status.fromServiceSpecificError 1 "no update in progress" : Status textLib) ∧
    (AttemptRollback textLib failingBackend emptyService true).status = some (Status.fromServiceSpecificError 1 "no update in progress" : Status textLib) ∧
    (CanRollback textLib failingBackend emptyService false).status = some (Status.fromServiceSpecificError 1 "no update in progress" : Status textLib) ∧
    (ResetStatus textLib failingBackend emptyService).status = some (Status.fromServiceSpecificError 1 "no update in progress" : Status textLib) ∧
    (GetStatus textLib failingBackend emptyService staleStatus).status = some (Status.fromServiceSpecificError 1 "no update in progress" : Status textLib) ∧
    (RebootIfNeeded textLib failingBackend emptyService).status = some (Status.fromServiceSpecificError 1 "no update in progress" : Status textLib) ∧
    (SetChannel textLib failingBackend emptyService "beta-channel" false).status = some (Status.fromServiceSpecificError 1 "no update in progress" : Status textLib) ∧
    (GetChannel textLib failingBackend emptyService true "old").status = some (Status.fromServiceSpecificError 1 "no update in progress" : Status textLib) ∧
    (SetP2PUpdatePermission textLib failingBackend emptyService true).status = some (Status.fromServiceSpecificError 1 "no update in progress" : Status textLib) ∧
    (GetP2PUpdatePermission textLib failingBackend emptyService false).status = some (Status.fromServiceSpecificError 1 "no update in progress" : Status textLib) ∧
    (SetUpdateOverCellularPermission textLib failingBackend emptyService true).status =
        some (Status.fromServiceSpecificError 1 "no update in progress" : Status textLib) ∧
    (GetUpdateOverCellularPermission textLib failingBackend emptyService false).status =
        some (Status.fromServiceSpecificError 1 "no update in progress" : Status textLib) ∧
    (GetDurationSinceUpdate textLib failingBackend emptyService 0).status = some (Status.fromServiceSpecificError 1 "no update in progress" : Status textLib) ∧
    (GetPrevVersion textLib failingBackend emptyService "old").status = some (Status.fromServiceSpecificError 1 "no update in progress" : Status textLib) ∧
    (GetRollbackPartition textLib failingBackend emptyService "old").status = some (Status.fromServiceSpecificError 1 "no update in progress" : Status textLib) ∧
    cut "no update in progress" = "no update in progress" :=
  have h := backend_failure_is_service_specific_error failingBackend emptyService
    "no update in progress"
  ⟨h.1 "1.0" "https://omaha" 0 ⟨rfl, rfl⟩,
    h.2.1 true ⟨rfl, rfl⟩,
    h.2.2.1 false ⟨rfl, rfl⟩,
    h.2.2.2.1 ⟨rfl, rfl⟩,
    h.2.2.2.2.1 staleStatus ⟨rfl, rfl⟩,
    h.2.2.2.2.2.1 ⟨rfl, rfl⟩,
    h.2.2.2.2.2.2.1 "beta-channel" false ⟨rfl, rfl⟩,
    h.2.2.2.2.2.2.2.1 true "old" ⟨rfl, rfl⟩,
    h.2.2.2.2.2.2.2.2.1 true ⟨rfl, rfl⟩,
    h.2.2.2.2.2.2.2.2.2.1 false ⟨rfl, rfl⟩,
    h.2.2.2.2.2.2.2.2.2.2.1 true ⟨rfl, rfl⟩,
    h.2.2.2.2.2.2.2.2.2.2.2.1 false ⟨rfl, rfl⟩,
    h.2.2.2.2.2.2.2.2.2.2.2.2.1 0 ⟨rfl, rfl⟩,
    h.2.2.2.2.2.2.2.2.2.2.2.2.2.1 "old" ⟨rfl, rfl⟩,
    h.2.2.2.2.2.2.2.2.2.2.2.2.2.2.1 "old" ⟨rfl, rfl⟩,
    h.2.2.2.2.2.2.2.2.2.2.2.2.2.2.2.1 (by unfold NulFree; decide)⟩

/-- Whatever the string library: if the backend method, called with the
arguments the wrapper passes it, returns success, the wrapper returns
`Status::ok()`, a scalar output slot holds what the backend wrote, and a string
output slot holds `String16{s.c_str()}` of the backend's string `s`. -/
theorem success_outputs_in_any_library (L : StringLib) {σ : Type}
    (B : UpdateEngineService σ) (self : BinderUpdateEngineService σ) :
    (∀ app_version omaha_url flags,
      Succeeds self B.AttemptUpdate
          (NormalString L app_version, NormalString L omaha_url, flags) () →
        (AttemptUpdate L B self app_version omaha_url flags).status = some Status.ok) ∧
    (∀ powerwash, Succeeds self B.AttemptRollback powerwash () →
        (AttemptRollback L B self powerwash).status = some Status.ok) ∧
    (∀ out, Succeeds self B.CanRollback () out →
        (CanRollback L B self out).status = some Status.ok ∧
        (CanRollback L B self out).outs = some (written self B.CanRollback () out)) ∧
    (Succeeds self B.ResetStatus () () →
        (ResetStatus L B self).status = some Status.ok) ∧
    (∀ status : ParcelableUpdateEngineStatus L,
      Succeeds self B.GetStatus ()
          (status.last_checked_time_, status.progress_, "", "", status.new_size_) →
        (GetStatus L B self status).status = some Status.ok ∧
        (GetStatus L B self status).outs =
          some
            { last_checked_time_ :=
                (written self B.GetStatus ()
                  (status.last_checked_time_, status.progress_, "", "", status.new_size_)).1,
              progress_ :=
                (written self B.GetStatus ()
                  (status.last_checked_time_, status.progress_, "", "", status.new_size_)).2.1,
              current_operation_ :=
                L.String16_of_cstr (L.c_str
                  (written self B.GetStatus ()
                    (status.last_checked_time_, status.progress_, "", "",
                      status.new_size_)).2.2.1),
              new_version_ :=
                L.String16_of_cstr (L.c_str
                  (written self B.GetStatus ()
                    (status.last_checked_time_, status.progress_, "", "",
                      status.new_size_)).2.2.2.1),
              new_size_ :=
                (written self B.GetStatus ()
                  (status.last_checked_time_, status.progress_, "", "",
                    status.new_size_)).2.2.2.2 }) ∧
    (Succeeds self B.RebootIfNeeded () () →
        (RebootIfNeeded L B self).status = some Status.ok) ∧
    (∀ target_channel powerwash,
      Succeeds self B.SetChannel (NormalString L target_channel, powerwash) () →
        (SetChannel L B self target_channel powerwash).status = some Status.ok) ∧
    (∀ get_current_channel out, Succeeds self B.GetChannel get_current_channel "" →
        (GetChannel L B self get_current_channel out).status = some Status.ok ∧
        (GetChannel L B self get_current_channel out).outs =
          some (L.String16_of_cstr (L.c_str (written self B.GetChannel get_current_channel "")))) ∧
    (∀ enabled, Succeeds self B.SetP2PUpdatePermission enabled () →
        (SetP2PUpdatePermission L B self enabled).status = some Status.ok) ∧
    (∀ out, Succeeds self B.GetP2PUpdatePermission () out →
        (GetP2PUpdatePermission L B self out).status = some Status.ok ∧
        (GetP2PUpdatePermission L B self out).outs =
          some (written self B.GetP2PUpdatePermission () out)) ∧
    (∀ enabled, Succeeds self B.SetUpdateOverCellularPermission enabled () →
        (SetUpdateOverCellularPermission L B self enabled).status = some Status.ok) ∧
    (∀ out, Succeeds self B.GetUpdateOverCellularPermission () out →
        (GetUpdateOverCellularPermission L B self out).status = some Status.ok ∧
        (GetUpdateOverCellularPermission L B self out).outs =
          some (written self B.GetUpdateOverCellularPermission () out)) ∧
    (∀ out, Succeeds self B.GetDurationSinceUpdate () out →
        (GetDurationSinceUpdate L B self out).status = some Status.ok ∧
        (GetDurationSinceUpdate L B self out).outs =
          some (written self B.GetDurationSinceUpdate () out)) ∧
    (∀ out, Succeeds self B.GetPrevVersion () "" →
        (GetPrevVersion L B self out).status = some Status.ok ∧
        (GetPrevVersion L B self out).outs =
          some (L.String16_of_cstr (L.c_str (written self B.GetPrevVersion () "")))) ∧
    (∀ out, Succeeds self B.GetRollbackPartition () "" →
        (GetRollbackPartition L B self out).status = some Status.ok ∧
        (GetRollbackPartition L B self out).outs =
          some (L.String16_of_cstr (L.c_str (written self B.GetRollbackPartition () "")))) := by
  refine ⟨?_, ?_, ?_, ?_, ?_, ?_, ?_, ?_, ?_, ?_, ?_, ?_, ?_, ?_, ?_⟩
  · intro a u f h
    simp [AttemptUpdate, Reply.status, CallCommonHandler_of_succeeds L _ _ _ _ h]
  · intro a h
    simp [AttemptRollback, Reply.status, CallCommonHandler_of_succeeds L _ _ _ _ h]
  · intro a h
    simp [CanRollback, Reply.status, Reply.outs, CallCommonHandler_of_succeeds L _ _ _ _ h]
  · intro h
    simp [ResetStatus, Reply.status, CallCommonHandler_of_succeeds L _ _ _ _ h]
  · intro a h
    simp [GetStatus, Reply.status, Reply.outs, CallCommonHandler_of_succeeds L _ _ _ _ h,
      Status.isOk]
  · intro h
    simp [RebootIfNeeded, Reply.status, CallCommonHandler_of_succeeds L _ _ _ _ h]
  · intro a b h
    simp [SetChannel, Reply.status, CallCommonHandler_of_succeeds L _ _ _ _ h]
  · intro a b h
    simp [GetChannel, Reply.status, Reply.outs, CallCommonHandler_of_succeeds L _ _ _ _ h]
  · intro a h
    simp [SetP2PUpdatePermission, Reply.status, CallCommonHandler_of_succeeds L _ _ _ _ h]
  · intro a h
    simp [GetP2PUpdatePermission, Reply.status, Reply.outs,
      CallCommonHandler_of_succeeds L _ _ _ _ h]
  · intro a h
    simp [SetUpdateOverCellularPermission, Reply.status,
      CallCommonHandler_of_succeeds L _ _ _ _ h]
  · intro a h
    simp [GetUpdateOverCellularPermission, Reply.status, Reply.outs,
      CallCommonHandler_of_succeeds L _ _ _ _ h]
  · intro a h
    simp [GetDurationSinceUpdate, Reply.status, Reply.outs,
      CallCommonHandler_of_succeeds L _ _ _ _ h]
  · intro a h
    simp [GetPrevVersion, Reply.status, Reply.outs, CallCommonHandler_of_succeeds L _ _ _ _ h]
  · intro a h
    simp [GetRollbackPartition, Reply.status, Reply.outs,
      CallCommonHandler_of_succeeds L _ _ _ _ h, Status.isOk]

/-- C2 as stated fails for a string with a NUL character: `nulBackend` succeeds
and writes the version "1.2\x00.2"; `GetPrevVersion` returns `ok` with "1.2" in
the slot.  Likewise `GetStatus` leaves "DOWN" and "1.2" for the strings
"DOWN\x00LOADING" and "1.2\x00.3". -/
theorem backend_success_string_is_cut_at_nul :
    Succeeds (nulService true) nulBackend.GetPrevVersion () "" ∧
    written (nulService true) nulBackend.GetPrevVersion () "" = "1.2\x00.2" ∧
    (GetPrevVersion textLib nulBackend (nulService true) "old").status = some Status.ok ∧
    (GetPrevVersion textLib nulBackend (nulService true) "old").outs = some "1.2" ∧
    (GetPrevVersion textLib nulBackend (nulService true) "old").outs ≠ some "1.2\x00.2" ∧
    (GetStatus textLib nulBackend (nulService true) staleStatus).outs =
      some
        { last_checked_time_ := 100, progress_ := Double.half,
          current_operation_ := "DOWN", new_version_ := "1.2", new_size_ := 5000 } := by
  refine ⟨rfl, rfl, rfl, rfl, ?_, rfl⟩
  intro h
  have h2 : (some "1.2" : Option String) = some "1.2\x00.2" := h
  revert h2
  decide

/-- C2, amended. For each of the fifteen operations and every backend: if the
backend method, called with the arguments the wrapper passes it, returns success,
the wrapper returns `Status::ok()`; every scalar output slot equals the value the
backend wrote; every string output slot holds the backend's string read as a C
string, that is the string up to its first NUL character: exactly the backend's
string when it has no NUL, a beginning of it otherwise. -/
theorem backend_success_is_ok_with_outputs {σ : Type}
    (B : UpdateEngineService σ) (self : BinderUpdateEngineService σ) :
    (∀ app_version omaha_url flags,
      Succeeds self B.AttemptUpdate
          (NormalString textLib app_version, NormalString textLib omaha_url, flags) () →
        (AttemptUpdate textLib B self app_version omaha_url flags).status = some Status.ok) ∧
    (∀ powerwash, Succeeds self B.AttemptRollback powerwash () →
        (AttemptRollback textLib B self powerwash).status = some Status.ok) ∧
    (∀ out, Succeeds self B.CanRollback () out →
        (CanRollback textLib B self out).status = some Status.ok ∧
        (CanRollback textLib B self out).outs = some (written self B.CanRollback () out)) ∧
    (Succeeds self B.ResetStatus () () →
        (ResetStatus textLib B self).status = some Status.ok) ∧
    (∀ status : ParcelableUpdateEngineStatus textLib,
      Succeeds self B.GetStatus ()
          (status.last_checked_time_, status.progress_, "", "", status.new_size_) →
        (GetStatus textLib B self status).status = some Status.ok ∧
        (GetStatus textLib B self status).outs =
          some
            { last_checked_time_ :=
                (written self B.GetStatus ()
                  (status.last_checked_time_, status.progress_, "", "", status.new_size_)).1,
              progress_ :=
                (written self B.GetStatus ()
                  (status.last_checked_time_, status.progress_, "", "", status.new_size_)).2.1,
              current_operation_ :=
                cut
                  ((written self B.GetStatus ()
                    (status.last_checked_time_, status.progress_, "", "",
                      status.new_size_)).2.2.1),
              new_version_ :=
                cut
                  ((written self B.GetStatus ()
                    (status.last_checked_time_, status.progress_, "", "",
                      status.new_size_)).2.2.2.1),
              new_size_ :=
                (written self B.GetStatus ()
                  (status.last_checked_time_, status.progress_, "", "",
                    status.new_size_)).2.2.2.2 }) ∧
    (Succeeds self B.RebootIfNeeded () () →
        (RebootIfNeeded textLib B self).status = some Status.ok) ∧
    (∀ target_channel powerwash,
      Succeeds self B.SetChannel (NormalString textLib target_channel, powerwash) () →
        (SetChannel textLib B self target_channel powerwash).status = some Status.ok) ∧
    (∀ get_current_channel out, Succeeds self B.GetChannel get_current_channel "" →
        (GetChannel textLib B self get_current_channel out).status = some Status.ok ∧
        (GetChannel textLib B self get_current_channel out).outs =
          some (cut (written self B.GetChannel get_current_channel ""))) ∧
    (∀ enabled, Succeeds self B.SetP2PUpdatePermission enabled () →
        (SetP2PUpdatePermission textLib B self enabled).status = some Status.ok) ∧
    (∀ out, Succeeds self B.GetP2PUpdatePermission () out →
        (GetP2PUpdatePermission textLib B self out).status = some Status.ok ∧
        (GetP2PUpdatePermission textLib B self out).outs =
          some (written self B.GetP2PUpdatePermission () out)) ∧
    (∀ enabled, Succeeds self B.SetUpdateOverCellularPermission enabled () →
        (SetUpdateOverCellularPermission textLib B self enabled).status = some Status.ok) ∧
    (∀ out, Succeeds self B.GetUpdateOverCellularPermission () out →
        (GetUpdateOverCellularPermission textLib B self out).status = some Status.ok ∧
        (GetUpdateOverCellularPermission textLib B self out).outs =
          some (written self B.GetUpdateOverCellularPermission () out)) ∧
    (∀ out, Succeeds self B.GetDurationSinceUpdate () out →
        (GetDurationSinceUpdate textLib B self out).status = some Status.ok ∧
        (GetDurationSinceUpdate textLib B self out).outs =
          some (written self B.GetDurationSinceUpdate () out)) ∧
    (∀ out, Succeeds self B.GetPrevVersion () "" →
        (GetPrevVersion textLib B self out).status = some Status.ok ∧
        (GetPrevVersion textLib B self out).outs =
          some (cut (written self B.GetPrevVersion () ""))) ∧
    (∀ out, Succeeds self B.GetRollbackPartition () "" →
        (GetRollbackPartition textLib B self out).status = some Status.ok ∧
        (GetRollbackPartition textLib B self out).outs =
          some (cut (written self B.GetRollbackPartition () ""))) ∧
    (∀ s : String, NulFree s → cut s = s) ∧
    (∀ s : String, (cut s).data <+: s.data) := by
  obtain ⟨h1, h2, h3, h4, h5, h6, h7, h8, h9, h10, h11, h12, h13, h14, h15⟩ :=
    success_outputs_in_any_library textLib B self
  exact ⟨h1, h2, h3, h4, h5, h6, h7, h8, h9, h10, h11, h12, h13, h14, h15,
    cut_of_NulFree, cut_prefix⟩

/-- C2, evaluated: against a backend whose every method succeeds, each of the
fifteen wrappers returns `Status::ok()` and the output slots hold the values the
backend wrote. -/
theorem backend_success_is_ok_with_outputs_witness :
    (AttemptUpdate textLib workingBackend emptyService "1.0" "https://omaha" 0).status =
        some Status.ok ∧
    (AttemptRollback textLib workingBackend emptyService true).status = some Status.ok ∧
    ((CanRollback textLib workingBackend emptyService false).status = some Status.ok ∧
      (CanRollback textLib workingBackend emptyService false).outs = some true) ∧
    (ResetStatus textLib workingBackend emptyService).status = some Status.ok ∧
    ((GetStatus textLib workingBackend emptyService staleStatus).status = some Status.ok ∧
      (GetStatus textLib workingBackend emptyService staleStatus).outs =
        some
          { last_checked_time_ := 100, progress_ := Double.half,
            current_operation_ := "DOWNLOADING", new_version_ := "1.2.3", new_size_ := 5000 }) ∧
    (RebootIfNeeded textLib workingBackend emptyService).status = some Status.ok ∧
    (SetChannel textLib workingBackend emptyService "beta-channel" false).status =
        some Status.ok ∧
    ((GetChannel textLib workingBackend emptyService false "old").status = some Status.ok ∧
      (GetChannel textLib workingBackend emptyService false "old").outs = some "beta-channel") ∧
    (SetP2PUpdatePermission textLib workingBackend emptyService true).status = some Status.ok ∧
    ((GetP2PUpdatePermission textLib workingBackend emptyService false).status =
        some Status.ok ∧
      (GetP2PUpdatePermission textLib workingBackend emptyService false).outs = some true) ∧
    (SetUpdateOverCellularPermission textLib workingBackend emptyService true).status =
        some Status.ok ∧
    ((GetUpdateOverCellularPermission textLib workingBackend emptyService true).status =
        some Status.ok ∧
      (GetUpdateOverCellularPermission textLib workingBackend emptyService true).outs =
        some false) ∧
    ((GetDurationSinceUpdate textLib workingBackend emptyService 0).status = some Status.ok ∧
      (GetDurationSinceUpdate textLib workingBackend emptyService 0).outs = some 3600000000) ∧
    ((GetPrevVersion textLib workingBackend emptyService "old").status = some Status.ok ∧
      (GetPrevVersion textLib workingBackend emptyService "old").outs = some "1.2.2") ∧
    ((GetRollbackPartition textLib workingBackend emptyService "old").status =
        some Status.ok ∧
      (GetRollbackPartition textLib workingBackend emptyService "old").outs =
        some "/dev/sda3") ∧
    cut "stable-channel" = "stable-channel" :=
  have h := backend_success_is_ok_with_outputs workingBackend emptyService
  ⟨h.1 "1.0" "https://omaha" 0 rfl,
    h.2.1 true rfl,
    h.2.2.1 false rfl,
    h.2.2.2.1 rfl,
    h.2.2.2.2.1 staleStatus rfl,
    h.2.2.2.2.2.1 rfl,
    h.2.2.2.2.2.2.1 "beta-channel" false rfl,
    h.2.2.2.2.2.2.2.1 false "old" rfl,
    h.2.2.2.2.2.2.2.2.1 true rfl,
    h.2.2.2.2.2.2.2.2.2.1 false rfl,
    h.2.2.2.2.2.2.2.2.2.2.1 true rfl,
    h.2.2.2.2.2.2.2.2.2.2.2.1 true rfl,
    h.2.2.2.2.2.2.2.2.2.2.2.2.1 0 rfl,
    h.2.2.2.2.2.2.2.2.2.2.2.2.2.1 "old" rfl,
    h.2.2.2.2.2.2.2.2.2.2.2.2.2.2.1 "old" rfl,
    h.2.2.2.2.2.2.2.2.2.2.2.2.2.2.2.1 "stable-channel" (by unfold NulFree; decide)⟩

/-! ## Output slots when the backend fails -/

/-- C3 as stated fails: the backend `failingBackend` writes 42, 0.5 and 7 through
the three scalar references and then fails with "no update in progress"; after
`GetStatus` the caller's status object, which held 1, 0.0 and 2, holds the
backend's values, so it is not what it was before the call.  And a failure with
the message "bad\x00hidden" is returned with the message "bad". -/
theorem GetStatus_failure_changes_scalar_slots :
    FailsWith emptyService failingBackend.GetStatus ()
        (staleStatus.last_checked_time_, staleStatus.progress_, "", "", staleStatus.new_size_)
        "no update in progress" ∧
    (staleStatus.last_checked_time_ = 1 ∧ staleStatus.progress_ = { bits := 0 } ∧
      staleStatus.new_size_ = 2) ∧
    (GetStatus textLib failingBackend emptyService staleStatus).outs =
      some
        { last_checked_time_ := 42, progress_ := Double.half,
          current_operation_ := "old-op", new_version_ := "old-version", new_size_ := 7 } ∧
    (GetStatus textLib failingBackend emptyService staleStatus).outs ≠ some staleStatus ∧
    FailsWith (nulService false) nulBackend.GetStatus ()
        (staleStatus.last_checked_time_, staleStatus.progress_, "", "", staleStatus.new_size_)
        "bad\x00hidden" ∧
    (GetStatus textLib nulBackend (nulService false) staleStatus).status =
      some (Status.fromServiceSpecificError 1 "bad" : Status textLib) := by
  refine ⟨⟨rfl, rfl⟩, ⟨rfl, rfl, rfl⟩, rfl, ?_, ⟨rfl, rfl⟩, rfl⟩
  intro h
  have h2 := congrArg (Option.map fun s => s.last_checked_time_) h
  revert h2
  decide

/-- Whatever the string library: if the backend's status query fails with
message `M`, `GetStatus` returns the service-specific error with message
`String8{M.c_str()}`, keeps the two string fields of the caller's object, and
leaves in the three scalar fields what the backend left there. -/
theorem GetStatus_failure_in_any_library (L : StringLib) {σ : Type}
    (B : UpdateEngineService σ) (self : BinderUpdateEngineService σ)
    (status : ParcelableUpdateEngineStatus L) (M : String)
    (h : FailsWith self B.GetStatus ()
      (status.last_checked_time_, status.progress_, "", "", status.new_size_) M) :
    (GetStatus L B self status).status =
      some (Status.fromServiceSpecificError 1 (L.String8_of_cstr (L.c_str M))) ∧
    (GetStatus L B self status).outs =
      some
        { last_checked_time_ :=
            (written self B.GetStatus ()
              (status.last_checked_time_, status.progress_, "", "", status.new_size_)).1,
          progress_ :=
            (written self B.GetStatus ()
              (status.last_checked_time_, status.progress_, "", "", status.new_size_)).2.1,
          current_operation_ := status.current_operation_,
          new_version_ := status.new_version_,
          new_size_ :=
            (written self B.GetStatus ()
              (status.last_checked_time_, status.progress_, "", "", status.new_size_)).2.2.2.2 } ∧
    ((written self B.GetStatus ()
          (status.last_checked_time_, status.progress_, "", "", status.new_size_)).1 =
        status.last_checked_time_ →
      (written self B.GetStatus ()
          (status.last_checked_time_, status.progress_, "", "", status.new_size_)).2.1 =
        status.progress_ →
      (written self B.GetStatus ()
          (status.last_checked_time_, status.progress_, "", "", status.new_size_)).2.2.2.2 =
        status.new_size_ →
      (GetStatus L B self status).outs = some status) := by
  have hc := CallCommonHandler_of_fails L _ _ _ _ M h
  refine ⟨?_, ?_, ?_⟩
  · simp [GetStatus, Reply.status, hc, serviceSpecificError]
  · simp [GetStatus, Reply.outs, hc, serviceSpecificError, Status.isOk]
  · intro h1 h2 h3
    simp [GetStatus, Reply.outs, hc, serviceSpecificError, Status.isOk, h1, h2, h3]

/-- C3, amended. If the backend's status query fails with message `M`,
`GetStatus` returns the service-specific error with code 1 whose message is `M`
read as a C string, that is `M` up to its first NUL character, exactly `M` when
`M` has no NUL; `current_operation` and `new_version` keep their values from
before the call whatever the backend wrote; `last_checked_time`, `progress` and
`new_size` hold what the backend left in them, so the whole object is as before
when the backend left these three as they were. -/
theorem GetStatus_failure_keeps_string_slots {σ : Type}
    (B : UpdateEngineService σ) (self : BinderUpdateEngineService σ)
    (status : ParcelableUpdateEngineStatus textLib) (M : String)
    (h : FailsWith self B.GetStatus ()
      (status.last_checked_time_, status.progress_, "", "", status.new_size_) M) :
    (GetStatus textLib B self status).status =
      some (Status.fromServiceSpecificError 1 (cut M)) ∧
    (GetStatus textLib B self status).outs =
      some
        { last_checked_time_ :=
            (written self B.GetStatus ()
              (status.last_checked_time_, status.progress_, "", "", status.new_size_)).1,
          progress_ :=
            (written self B.GetStatus ()
              (status.last_checked_time_, status.progress_, "", "", status.new_size_)).2.1,
          current_operation_ := status.current_operation_,
          new_version_ := status.new_version_,
          new_size_ :=
            (written self B.GetStatus ()
              (status.last_checked_time_, status.progress_, "", "", status.new_size_)).2.2.2.2 } ∧
    ((written self B.GetStatus ()
          (status.last_checked_time_, status.progress_, "", "", status.new_size_)).1 =
        status.last_checked_time_ →
      (written self B.GetStatus ()
          (status.last_checked_time_, status.progress_, "", "", status.new_size_)).2.1 =
        status.progress_ →
      (written self B.GetStatus ()
          (status.last_checked_time_, status.progress_, "", "", status.new_size_)).2.2.2.2 =
        status.new_size_ →
      (GetStatus textLib B self status).outs = some status) ∧
    (NulFree M → cut M = M) ∧
    (cut M).data <+: M.data := by
  obtain ⟨h1, h2, h3⟩ := GetStatus_failure_in_any_library textLib B self status M h
  exact ⟨h1, h2, h3, cut_of_NulFree M, cut_prefix M⟩

/-- C3 amended, evaluated on the backend that writes and then fails with
"no update in progress". -/
theorem GetStatus_failure_keeps_string_slots_witness :
    (GetStatus textLib failingBackend emptyService staleStatus).status =
      some (Status.fromServiceSpecificError 1 "no update in progress" : Status textLib) ∧
    (GetStatus textLib failingBackend emptyService staleStatus).outs =
      some
        { last_checked_time_ := 42, progress_ := Double.half,
          current_operation_ := "old-op", new_version_ := "old-version", new_size_ := 7 } ∧
    cut "no update in progress" = "no update in progress" :=
  have h := GetStatus_failure_keeps_string_slots failingBackend emptyService staleStatus
    "no update in progress" ⟨rfl, rfl⟩
  ⟨h.1, h.2.1, h.2.2.2.1 (by unfold NulFree; decide)⟩

/-- C4 as stated fails for the previous-version query: the backend
`failingBackend` leaves "partial" in the version string and fails; after
`GetPrevVersion` the caller's slot, which held "old", holds "partial". -/
theorem GetPrevVersion_failure_overwrites_slot :
    FailsWith emptyService failingBackend.GetPrevVersion () "" "no update in progress" ∧
    (GetPrevVersion textLib failingBackend emptyService "old").status =
      some (Status.fromServiceSpecificError 1 "no update in progress" : Status textLib) ∧
    (GetPrevVersion textLib failingBackend emptyService "old").outs = some "partial" ∧
    (GetPrevVersion textLib failingBackend emptyService "old").outs ≠ some "old" := by
  refine ⟨⟨rfl, rfl⟩, rfl, rfl, ?_⟩
  intro h
  have h2 : (some "partial" : Option String) = some "old" := h
  revert h2
  decide

/-- C4, amended. Whenever the backend's rollback-partition query fails,
`GetRollbackPartition` leaves the caller's slot as it was before the call, and it
assigns the slot when the query succeeds.  Whenever the backend's
previous-version query fails, `GetPrevVersion` assigns the caller's slot all the
same: the slot holds whatever the backend left in the version string, read as a
C string, which is the empty string when the backend wrote nothing. -/
theorem string_slots_after_backend_failure {σ : Type}
    (B : UpdateEngineService σ) (self : BinderUpdateEngineService σ) :
    (∀ (out_rollback_partition : String) (N : String),
      FailsWith self B.GetRollbackPartition () "" N →
        (GetRollbackPartition textLib B self out_rollback_partition).outs =
          some out_rollback_partition) ∧
    (∀ out_rollback_partition : String, Succeeds self B.GetRollbackPartition () "" →
        (GetRollbackPartition textLib B self out_rollback_partition).outs =
          some (cut (written self B.GetRollbackPartition () ""))) ∧
    (∀ (out_prev_version : String) (M : String), FailsWith self B.GetPrevVersion () "" M →
        (GetPrevVersion textLib B self out_prev_version).outs =
          some (cut (written self B.GetPrevVersion () ""))) ∧
    (∀ (out_prev_version : String) (M : String), FailsWith self B.GetPrevVersion () "" M →
        written self B.GetPrevVersion () "" = "" →
        (GetPrevVersion textLib B self out_prev_version).outs = some "") := by
  have hv : ∀ (out_prev_version : String) (M : String),
      FailsWith self B.GetPrevVersion () "" M →
        (GetPrevVersion textLib B self out_prev_version).outs =
          some (cut (written self B.GetPrevVersion () "")) := by
    intro out M h
    have hc := CallCommonHandler_of_fails textLib _ _ _ _ M h
    simp only [GetPrevVersion, Reply.outs, hc, Option.map_some']
    rfl
  refine ⟨?_, ?_, hv, ?_⟩
  · intro out N h
    have hc := CallCommonHandler_of_fails textLib _ _ _ _ N h
    simp only [GetRollbackPartition, Reply.outs, hc, Option.map_some', serviceSpecificError,
      Status.isOk]
    rfl
  · intro out h
    have hc := CallCommonHandler_of_succeeds textLib _ _ _ _ h
    simp only [GetRollbackPartition, Reply.outs, hc, Option.map_some', Status.isOk]
    rfl
  · intro out M h hw
    rw [hv out M h, hw]
    rfl

/-- C4 amended, evaluated: against the backend that leaves "partial" in its
string outputs and fails, against a backend whose queries succeed, and against
a backend that fails without writing. -/
theorem string_slots_after_backend_failure_witness :
    (GetRollbackPartition textLib failingBackend emptyService "old").outs = some "old" ∧
    (GetRollbackPartition textLib workingBackend emptyService "old").outs =
      some "/dev/sda3" ∧
    (GetPrevVersion textLib failingBackend emptyService "old").outs = some "partial" ∧
    (GetPrevVersion textLib nulBackend (nulService false) "old").outs = some "" :=
  ⟨(string_slots_after_backend_failure failingBackend emptyService).1 "old"
      "no update in progress" ⟨rfl, rfl⟩,
    (string_slots_after_backend_failure workingBackend emptyService).2.1 "old" rfl,
    (string_slots_after_backend_failure failingBackend emptyService).2.2.1 "old"
      "no update in progress" ⟨rfl, rfl⟩,
    (string_slots_after_backend_failure nulBackend (nulService false)).2.2.2 "old"
      "bad\x00hidden" ⟨rfl, rfl⟩ rfl⟩

/-- Two `sp` are the same exactly when they hold the same raw pointer. -/
theorem sp_eq_iff (c : sp) (p : Nat) : c = { get := p } ↔ c.get = p := by
  cases c
  simp

theorem scan_cons (p : Nat) (c : sp) (l : List sp) :
    UnregisterStatusCallback.scan p (c :: l) =
      if c.get ≠ p then UnregisterStatusCallback.scan p l + 1 else 0 := rfl

theorem eraseIdx_scan (p : Nat) (l : List sp) :
    l.eraseIdx (UnregisterStatusCallback.scan p l) = l.erase { get := p } := by
  induction l with
  | nil => rfl
  | cons c rest ih =>
    rw [scan_cons]
    by_cases hc : c.get = p
    · have : c = { get := p } := (sp_eq_iff c p).2 hc
      simp [hc, this]
    · have hne : c ≠ { get := p } := fun h => hc ((sp_eq_iff c p).1 h)
      simp [hc, ih, List.erase_cons, hne]

theorem scan_eq_length_iff (p : Nat) (l : List sp) :
    UnregisterStatusCallback.scan p l = l.length ↔ ({ get := p } : sp) ∉ l := by
  induction l with
  | nil => simp [UnregisterStatusCallback.scan]
  | cons c rest ih =>
    rw [scan_cons]
    by_cases hc : c.get = p
    · have : c = { get := p } := (sp_eq_iff c p).2 hc
      simp [hc, this]
    · have hne : ({ get := p } : sp) ≠ c := fun h => hc ((sp_eq_iff c p).1 h.symm)
      simp [hc, ih, hne]

theorem UnregisterStatusCallback_callbacks {σ : Type} (self : BinderUpdateEngineService σ)
    (p : Nat) :
    (UnregisterStatusCallback self p).1.callbacks_ = self.callbacks_.erase { get := p } := by
  unfold UnregisterStatusCallback
  by_cases h : UnregisterStatusCallback.scan p self.callbacks_ = self.callbacks_.length
  · simp only [h, if_true]
    rw [List.erase_of_not_mem ((scan_eq_length_iff p _).1 h)]
  · simp only [h, if_false]
    exact eraseIdx_scan p _

theorem UnregisterStatusCallback_common {σ : Type} (self : BinderUpdateEngineService σ)
    (p : Nat) : (UnregisterStatusCallback self p).1.common_ = self.common_ := by
  unfold UnregisterStatusCallback
  by_cases h : UnregisterStatusCallback.scan p self.callbacks_ = self.callbacks_.length
  · simp only [h, if_true]
  · simp only [h, if_false]


theorem registerAll_callbacks (L : StringLib) {σ : Type} (hs : List sp) :
    ∀ (self : BinderUpdateEngineService σ) (w : BinderWrapper),
      (registerAll L self w hs).1 = List.replicate hs.length Status.ok ∧
      (registerAll L self w hs).2.1.callbacks_ = self.callbacks_ ++ hs ∧
      (registerAll L self w hs).2.1.common_ = self.common_ := by
  induction hs with
  | nil => intro self w; simp [registerAll]
  | cons c rest ih =>
    intro self w
    obtain ⟨h1, h2, h3⟩ := ih (RegisterStatusCallback L self w c).2.1
      (RegisterStatusCallback L self w c).2.2
    refine ⟨?_, ?_, ?_⟩
    · show (RegisterStatusCallback L self w c).1 :: _ = _
      rw [h1]
      rfl
    · show (registerAll L (RegisterStatusCallback L self w c).2.1
        (RegisterStatusCallback L self w c).2.2 rest).2.1.callbacks_ = _
      rw [h2]
      simp [RegisterStatusCallback]
    · show (registerAll L (RegisterStatusCallback L self w c).2.1
        (RegisterStatusCallback L self w c).2.2 rest).2.1.common_ = _
      rw [h3]
      rfl

theorem SendStatusUpdate_callbacks (L : StringLib) {σ : Type}
    (self : BinderUpdateEngineService σ) (t : Int) (p : Double) (op v : String) (n : Int) :
    (SendStatusUpdate L self t p op v n).map (fun call => call.callback) = self.callbacks_ := by
  simp [SendStatusUpdate, List.map_map, Function.comp_def]

theorem countP_callback_SendStatusUpdate (L : StringLib) {σ : Type}
    (self : BinderUpdateEngineService σ) (t : Int) (p : Double) (op v : String) (n : Int)
    (c : sp) :
    (SendStatusUpdate L self t p op v n).countP (fun call => decide (call.callback = c)) =
      self.callbacks_.count c := by
  unfold SendStatusUpdate
  induction self.callbacks_ with
  | nil => rfl
  | cons x rest ih =>
    rw [List.map_cons, List.countP_cons, ih, List.count_cons]
    simp

/-- Whatever the string library: registering the callbacks of a duplicate-free
list in turn, from an empty registry, returns `ok` every time and leaves the
registry equal to that list; `SendStatusUpdate` then makes one call per callback
of the list, in list order, with `String16{op.c_str()}` and
`String16{version.c_str()}` for the two strings. -/
theorem register_then_send_in_any_library (L : StringLib) {σ : Type} (common : σ)
    (binder_wrapper : BinderWrapper) (callbacks : List sp) (hd : callbacks.Nodup)
    (t : Int) (p : Double) (op v : String) (n : Int) :
    (registerAll L { common_ := common, callbacks_ := [] } binder_wrapper callbacks).1 =
      List.replicate callbacks.length Status.ok ∧
    (registerAll L { common_ := common, callbacks_ := [] } binder_wrapper
      callbacks).2.1.callbacks_ = callbacks ∧
    (registerAll L { common_ := common, callbacks_ := [] } binder_wrapper
      callbacks).2.1.callbacks_.length = callbacks.length ∧
    SendStatusUpdate L
        (registerAll L { common_ := common, callbacks_ := [] } binder_wrapper callbacks).2.1
        t p op v n =
      callbacks.map (fun callback =>
        { callback := callback, last_checked_time := t, progress := p,
          current_operation := L.String16_of_cstr (L.c_str op),
          new_version := L.String16_of_cstr (L.c_str v), new_size := n }) ∧
    ∀ callback ∈ callbacks,
      (SendStatusUpdate L
          (registerAll L { common_ := common, callbacks_ := [] } binder_wrapper callbacks).2.1
          t p op v n).countP (fun call => decide (call.callback = callback)) = 1 := by
  obtain ⟨h1, h2, _⟩ := registerAll_callbacks L callbacks
    ({ common_ := common, callbacks_ := [] } : BinderUpdateEngineService σ) binder_wrapper
  simp only [List.nil_append] at h2
  refine ⟨h1, h2, by rw [h2], ?_, ?_⟩
  · simp [SendStatusUpdate, h2]
  · intro c hc
    rw [countP_callback_SendStatusUpdate, h2]
    exact List.count_eq_one_of_mem hd hc


/-- C6 as stated fails for a string with a NUL character: with A registered,
`SendStatusUpdate(100, 0.5, "X\x00Y", "1.2.3", 5000)` calls A with the operation
"X", not with the operation sent. -/
theorem send_string_is_cut_at_nul :
    (registerAll textLib emptyService noWatches [callbackA]).2.1.callbacks_ = [callbackA] ∧
    SendStatusUpdate textLib (registerAll textLib emptyService noWatches [callbackA]).2.1
        100 Double.half "X\x00Y" "1.2.3" 5000 =
      [{ callback := callbackA, last_checked_time := 100, progress := Double.half,
          current_operation := "X", new_version := "1.2.3", new_size := 5000 }] ∧
    (SendStatusUpdate textLib (registerAll textLib emptyService noWatches [callbackA]).2.1
        100 Double.half "X\x00Y" "1.2.3" 5000).map (fun call => call.current_operation) ≠
      ["X\x00Y"] := by
  refine ⟨rfl, rfl, ?_⟩
  intro h
  have h2 : (["X"] : List String) = ["X\x00Y"] := h
  revert h2
  decide

/-- C6, amended. Starting from an empty registry, registering the callbacks of a
list of pairwise distinct callbacks in turn returns `ok` every time and leaves
the registry equal to that list, in registration order; `SendStatusUpdate(t,
progress, op, version, size)` then makes exactly one `HandleStatusUpdate` call
per callback of the list, in list order, each with `t`, `progress` and `size` as
given and with `op` and `version` read as C strings, that is up to their first
NUL character: exactly `op` and `version` when they have no NUL. -/
theorem register_then_send_reaches_all {σ : Type} (common : σ)
    (binder_wrapper : BinderWrapper) (callbacks : List sp) (hd : callbacks.Nodup)
    (t : Int) (p : Double) (op v : String) (n : Int) :
    (registerAll textLib { common_ := common, callbacks_ := [] } binder_wrapper callbacks).1 =
      List.replicate callbacks.length Status.ok ∧
    (registerAll textLib { common_ := common, callbacks_ := [] } binder_wrapper
      callbacks).2.1.callbacks_ = callbacks ∧
    (registerAll textLib { common_ := common, callbacks_ := [] } binder_wrapper
      callbacks).2.1.callbacks_.length = callbacks.length ∧
    SendStatusUpdate textLib
        (registerAll textLib { common_ := common, callbacks_ := [] } binder_wrapper callbacks).2.1
        t p op v n =
      callbacks.map (fun callback =>
        { callback := callback, last_checked_time := t, progress := p,
          current_operation := cut op,
          new_version := cut v, new_size := n }) ∧
    (∀ callback ∈ callbacks,
      (SendStatusUpdate textLib
          (registerAll textLib { common_ := common, callbacks_ := [] } binder_wrapper callbacks).2.1
          t p op v n).countP (fun call => decide (call.callback = callback)) = 1) ∧
    (NulFree op → cut op = op) ∧ (NulFree v → cut v = v) ∧
    (cut op).data <+: op.data ∧ (cut v).data <+: v.data := by
  obtain ⟨h1, h2, h3, h4, h5⟩ := register_then_send_in_any_library textLib common
    binder_wrapper callbacks hd t p op v n
  exact ⟨h1, h2, h3, h4, h5, cut_of_NulFree op, cut_of_NulFree v, cut_prefix op, cut_prefix v⟩

theorem UnregisterStatusCallback_of_not_mem {σ : Type} (self : BinderUpdateEngineService σ)
    (h : sp) (hn : h ∉ self.callbacks_) :
    UnregisterStatusCallback self h.get =
      (self, LogSeverity.ERROR, "Got death notification for unknown callback.") := by
  have hs : UnregisterStatusCallback.scan h.get self.callbacks_ = self.callbacks_.length :=
    (scan_eq_length_iff h.get _).2 hn
  simp [UnregisterStatusCallback, hs]

theorem erase_eq_filter_of_count_le_one (h : sp) (l : List sp) (hc : l.count h ≤ 1) :
    l.erase h = l.filter (fun c => decide (c ≠ h)) := by
  induction l with
  | nil => rfl
  | cons c rest ih =>
    by_cases hch : c = h
    · subst hch
      have h0 : rest.count c = 0 := by
        rw [List.count_cons_self] at hc
        omega
      have hn : c ∉ rest := List.count_eq_zero.1 h0
      have hf : rest.filter (fun x => decide (x ≠ c)) = rest := by
        apply List.filter_eq_self.2
        intro x hx
        simp
        intro hxc
        exact hn (hxc ▸ hx)
      rw [List.erase_cons_head, List.filter_cons_of_neg (by simp), hf]
    · have hc2 : rest.count h ≤ 1 := by
        rw [List.count_cons_of_ne (Ne.symm hch)] at hc
        exact hc
      rw [List.erase_cons_tail (by simpa using hch), List.filter_cons_of_pos (by simpa using hch),
        ih hc2]

theorem not_mem_erase_of_count_le_one (h : sp) (l : List sp) (hc : l.count h ≤ 1) :
    h ∉ l.erase h := by
  rw [← List.count_eq_zero, List.count_erase_self]
  omega

theorem run_never_calls_absent (L : StringLib) {σ : Type} (h : sp) (events : List Event) :
    ∀ (self : BinderUpdateEngineService σ) (w : BinderWrapper), h ∉ self.callbacks_ →
      (∀ c, Event.Register c ∈ events → c ≠ h) →
      ∀ call ∈ (run L self w events).2.2, call.callback ≠ h := by
  induction events with
  | nil => intro self w _ _ call hcall; simp [run] at hcall
  | cons e rest ih =>
    intro self w hn hreg call hcall
    have hrest : ∀ c, Event.Register c ∈ rest → c ≠ h :=
      fun c hc => hreg c (List.mem_cons_of_mem _ hc)
    cases e with
    | Register c =>
      have hch : c ≠ h := hreg c (List.mem_cons_self _ _)
      refine ih (RegisterStatusCallback L self w c).2.1 (RegisterStatusCallback L self w c).2.2
        ?_ hrest call hcall
      simp [RegisterStatusCallback, hn, Ne.symm hch]
    | Death p =>
      refine ih (UnregisterStatusCallback self p).1 w ?_ hrest call hcall
      rw [UnregisterStatusCallback_callbacks]
      exact fun hm => hn (List.mem_of_mem_erase hm)
    | Send t p op v n =>
      have hcall2 : call ∈ SendStatusUpdate L self t p op v n ++ (run L self w rest).2.2 := hcall
      rcases List.mem_append.1 hcall2 with hm | hm
      · intro hch
        apply hn
        rw [← SendStatusUpdate_callbacks L self t p op v n, ← hch]
        exact List.mem_map_of_mem _ hm
      · exact ih self w hn hrest call hm


/-- C6, evaluated: registering A, B, C and sending one update. -/
theorem register_then_send_reaches_all_witness :
    (registerAll textLib emptyService noWatches [callbackA, callbackB, callbackC]).1 =
      [Status.ok, Status.ok, Status.ok] ∧
    (registerAll textLib emptyService noWatches
      [callbackA, callbackB, callbackC]).2.1.callbacks_ = [callbackA, callbackB, callbackC] ∧
    SendStatusUpdate textLib
        (registerAll textLib emptyService noWatches [callbackA, callbackB, callbackC]).2.1
        100 Double.half "DOWNLOADING" "1.2.3" 5000 =
      [{ callback := callbackA, last_checked_time := 100, progress := Double.half,
          current_operation := "DOWNLOADING", new_version := "1.2.3", new_size := 5000 },
        { callback := callbackB, last_checked_time := 100, progress := Double.half,
          current_operation := "DOWNLOADING", new_version := "1.2.3", new_size := 5000 },
        { callback := callbackC, last_checked_time := 100, progress := Double.half,
          current_operation := "DOWNLOADING", new_version := "1.2.3", new_size := 5000 }] ∧
    cut "DOWNLOADING" = "DOWNLOADING" ∧ cut "1.2.3" = "1.2.3" :=
  have h := register_then_send_reaches_all () noWatches
    [callbackA, callbackB, callbackC] (by decide) 100 Double.half "DOWNLOADING" "1.2.3" 5000
  ⟨h.1, h.2.1, h.2.2.2.1, h.2.2.2.2.2.1 (by unfold NulFree; decide),
    h.2.2.2.2.2.2.1 (by unfold NulFree; decide)⟩

/-- C7. If the callback `h` occurs exactly once in the registry,
`UnregisterStatusCallback(h)` makes the registry one entry shorter and removes
`h` from it; a `SendStatusUpdate` that follows calls exactly the other entries of
the registry, in their order, with the five values sent; and whatever
registrations of other callbacks, death notifications and status updates follow,
no `HandleStatusUpdate` call is made on `h`. -/
theorem unregister_present_once_stops_delivery (L : StringLib) {σ : Type}
    (self : BinderUpdateEngineService σ) (binder_wrapper : BinderWrapper) (h : sp)
    (hc : self.callbacks_.count h = 1) :
    (UnregisterStatusCallback self h.get).1.callbacks_.length + 1 = self.callbacks_.length ∧
    h ∉ (UnregisterStatusCallback self h.get).1.callbacks_ ∧
    (∀ (t : Int) (p : Double) (op v : String) (n : Int),
      SendStatusUpdate L (UnregisterStatusCallback self h.get).1 t p op v n =
        (self.callbacks_.filter (fun c => decide (c ≠ h))).map (fun callback =>
          { callback := callback, last_checked_time := t, progress := p,
            current_operation := L.String16_of_cstr (L.c_str op),
            new_version := L.String16_of_cstr (L.c_str v), new_size := n })) ∧
    (∀ events : List Event, (∀ c, Event.Register c ∈ events → c ≠ h) →
      ∀ call ∈ (run L (UnregisterStatusCallback self h.get).1 binder_wrapper events).2.2,
        call.callback ≠ h) := by
  have hcb := UnregisterStatusCallback_callbacks self h.get
  have hmem : h ∈ self.callbacks_ := List.count_pos_iff.1 (by omega)
  have hnot : h ∉ (UnregisterStatusCallback self h.get).1.callbacks_ := by
    rw [hcb]
    exact not_mem_erase_of_count_le_one h _ (by omega)
  refine ⟨?_, hnot, ?_, ?_⟩
  · rw [hcb, List.length_erase_of_mem hmem]
    have := List.length_pos_of_mem hmem
    omega
  · intro t p op v n
    simp only [SendStatusUpdate]
    rw [hcb, erase_eq_filter_of_count_le_one h _ (by omega)]
  · intro events hreg
    exact run_never_calls_absent L h events _ binder_wrapper hnot hreg

/-- C7, evaluated: register A, B, C; remove B; the update
(100, 0.5, "DOWNLOADING", "1.2.3", 5000) is delivered to A and then to C, and
not to B. -/
theorem unregister_present_once_stops_delivery_witness :
    (UnregisterStatusCallback
        (registerAll textLib emptyService noWatches [callbackA, callbackB, callbackC]).2.1
        callbackB.get).1.callbacks_ = [callbackA, callbackC] ∧
    SendStatusUpdate textLib
        (UnregisterStatusCallback
          (registerAll textLib emptyService noWatches [callbackA, callbackB, callbackC]).2.1
          callbackB.get).1
        100 Double.half "DOWNLOADING" "1.2.3" 5000 =
      [{ callback := callbackA, last_checked_time := 100, progress := Double.half,
          current_operation := "DOWNLOADING", new_version := "1.2.3", new_size := 5000 },
        { callback := callbackC, last_checked_time := 100, progress := Double.half,
          current_operation := "DOWNLOADING", new_version := "1.2.3", new_size := 5000 }] ∧
    ∀ call ∈ (run textLib
        (UnregisterStatusCallback
          (registerAll textLib emptyService noWatches [callbackA, callbackB, callbackC]).2.1
          callbackB.get).1
        noWatches [Event.Send 100 Double.half "DOWNLOADING" "1.2.3" 5000]).2.2,
      call.callback ≠ callbackB :=
  have h := unregister_present_once_stops_delivery textLib
    (registerAll textLib emptyService noWatches [callbackA, callbackB, callbackC]).2.1
    noWatches callbackB (by decide)
  ⟨by decide, h.2.2.1 100 Double.half "DOWNLOADING" "1.2.3" 5000,
    h.2.2.2 [Event.Send 100 Double.half "DOWNLOADING" "1.2.3" 5000]
      (fun c hc => by simp at hc)⟩

/-- C8. If the callback `h` does not occur in the registry (an empty registry
included), `UnregisterStatusCallback(h)` returns with the object unchanged, the
registry with it, and only logs the error line. -/
theorem unregister_absent_changes_nothing {σ : Type} (self : BinderUpdateEngineService σ)
    (h : sp) (hn : h ∉ self.callbacks_) :
    UnregisterStatusCallback self h.get =
        (self, LogSeverity.ERROR, "Got death notification for unknown callback.") ∧
    (UnregisterStatusCallback self h.get).1.callbacks_ = self.callbacks_ ∧
    (UnregisterStatusCallback self h.get).1.callbacks_.length = self.callbacks_.length := by
  have he := UnregisterStatusCallback_of_not_mem self h hn
  refine ⟨he, ?_, ?_⟩ <;> rw [he]

/-- C8, evaluated: removing B from a registry holding A and C, and from the empty
registry. -/
theorem unregister_absent_changes_nothing_witness :
    (UnregisterStatusCallback
        ({ common_ := (), callbacks_ := [callbackA, callbackC] } :
          BinderUpdateEngineService Unit) callbackB.get).1.callbacks_ =
      [callbackA, callbackC] ∧
    (UnregisterStatusCallback emptyService callbackB.get).1.callbacks_ = [] :=
  ⟨(unregister_absent_changes_nothing
      ({ common_ := (), callbacks_ := [callbackA, callbackC] } :
        BinderUpdateEngineService Unit) callbackB (by decide)).2.1,
    (unregister_absent_changes_nothing emptyService callbackB (by decide)).2.1⟩


/-- C9 as stated fails when the callback is registered twice: after registering
A twice, one `UnregisterStatusCallback(A)` leaves A in the registry, and a status
update is still delivered to it, while two in succession leave the registry
empty, and nothing is delivered. -/
theorem unregister_twice_differs_on_duplicate :
    (registerAll textLib emptyService noWatches [callbackA, callbackA]).2.1.callbacks_ =
      [callbackA, callbackA] ∧
    (UnregisterStatusCallback
        (registerAll textLib emptyService noWatches [callbackA, callbackA]).2.1
        callbackA.get).1.callbacks_ = [callbackA] ∧
    (UnregisterStatusCallback
        (UnregisterStatusCallback
          (registerAll textLib emptyService noWatches [callbackA, callbackA]).2.1
          callbackA.get).1
        callbackA.get).1.callbacks_ = [] ∧
    (SendStatusUpdate textLib
        (UnregisterStatusCallback
          (registerAll textLib emptyService noWatches [callbackA, callbackA]).2.1
          callbackA.get).1
        100 Double.half "DOWNLOADING" "1.2.3" 5000).length = 1 ∧
    (SendStatusUpdate textLib
        (UnregisterStatusCallback
          (UnregisterStatusCallback
            (registerAll textLib emptyService noWatches [callbackA, callbackA]).2.1
            callbackA.get).1
          callbackA.get).1
        100 Double.half "DOWNLOADING" "1.2.3" 5000).length = 0 := by
  refine ⟨?_, ?_, ?_, ?_, ?_⟩ <;> decide

/-- C9, amended. If the callback `h` occurs at most once in the registry, calling
`UnregisterStatusCallback(h)` twice in succession leaves the same object as
calling it once, hence the same calls for every sequence of later events and for
every `SendStatusUpdate`. -/
theorem unregister_twice_eq_once (L : StringLib) {σ : Type}
    (self : BinderUpdateEngineService σ) (binder_wrapper : BinderWrapper) (h : sp)
    (hc : self.callbacks_.count h ≤ 1) :
    (UnregisterStatusCallback (UnregisterStatusCallback self h.get).1 h.get).1 =
      (UnregisterStatusCallback self h.get).1 ∧
    (∀ (t : Int) (p : Double) (op v : String) (n : Int),
      SendStatusUpdate L
          (UnregisterStatusCallback (UnregisterStatusCallback self h.get).1 h.get).1 t p op v n =
        SendStatusUpdate L (UnregisterStatusCallback self h.get).1 t p op v n) ∧
    (∀ events : List Event,
      run L (UnregisterStatusCallback (UnregisterStatusCallback self h.get).1 h.get).1
          binder_wrapper events =
        run L (UnregisterStatusCallback self h.get).1 binder_wrapper events) := by
  have hnot : h ∉ (UnregisterStatusCallback self h.get).1.callbacks_ := by
    rw [UnregisterStatusCallback_callbacks]
    exact not_mem_erase_of_count_le_one h _ hc
  have he : (UnregisterStatusCallback (UnregisterStatusCallback self h.get).1 h.get).1 =
      (UnregisterStatusCallback self h.get).1 := by
    rw [UnregisterStatusCallback_of_not_mem _ h hnot]
  refine ⟨he, ?_, ?_⟩
  · intro t p op v n
    rw [he]
  · intro events
    rw [he]

/-- C9 amended, evaluated: with A, B, C registered once each, removing B twice
leaves what removing it once leaves. -/
theorem unregister_twice_eq_once_witness :
    (UnregisterStatusCallback
        (UnregisterStatusCallback
          ({ common_ := (), callbacks_ := [callbackA, callbackB, callbackC] } :
            BinderUpdateEngineService Unit) callbackB.get).1 callbackB.get).1 =
      (UnregisterStatusCallback
        ({ common_ := (), callbacks_ := [callbackA, callbackB, callbackC] } :
          BinderUpdateEngineService Unit) callbackB.get).1 :=
  (unregister_twice_eq_once textLib
    ({ common_ := (), callbacks_ := [callbackA, callbackB, callbackC] } :
      BinderUpdateEngineService Unit) noWatches callbackB (by decide)).1

/-- C10. One `UnregisterStatusCallback(h)` removes at most one entry.  If `h`
occurs in the registry, the registry splits as `before ++ h :: after` with `h`
not in `before`, and what is left is `before ++ after`: the first entry equal to
`h` is gone, the registry is one entry shorter, every other entry, later copies of
`h` included, is still there in the same order.  If `h` does not occur, the
registry is unchanged.  The backend is not touched. -/
theorem unregister_erases_first_match_only {σ : Type} (self : BinderUpdateEngineService σ)
    (h : sp) :
    (h ∈ self.callbacks_ →
      ∃ before after : List sp,
        self.callbacks_ = before ++ h :: after ∧ h ∉ before ∧
        (UnregisterStatusCallback self h.get).1.callbacks_ = before ++ after ∧
        (UnregisterStatusCallback self h.get).1.callbacks_.length + 1 =
          self.callbacks_.length) ∧
    (h ∉ self.callbacks_ →
      (UnregisterStatusCallback self h.get).1.callbacks_ = self.callbacks_) ∧
    self.callbacks_.length ≤ (UnregisterStatusCallback self h.get).1.callbacks_.length + 1 ∧
    (UnregisterStatusCallback self h.get).1.callbacks_.count h = self.callbacks_.count h - 1 ∧
    (∀ c, c ≠ h →
      (UnregisterStatusCallback self h.get).1.callbacks_.count c = self.callbacks_.count c) ∧
    (UnregisterStatusCallback self h.get).1.callbacks_.Sublist self.callbacks_ ∧
    (UnregisterStatusCallback self h.get).1.common_ = self.common_ := by
  have hcb := UnregisterStatusCallback_callbacks self h.get
  have hh : ({ get := h.get } : sp) = h := rfl
  rw [hh] at hcb
  refine ⟨?_, ?_, ?_, ?_, ?_, ?_, UnregisterStatusCallback_common self h.get⟩
  · intro hmem
    obtain ⟨before, after, hb, hsplit, herase⟩ := List.exists_erase_eq hmem
    refine ⟨before, after, hsplit, hb, ?_, ?_⟩
    · rw [hcb, herase]
    · rw [hcb, herase, hsplit]
      simp only [List.length_append, List.length_cons]
      omega
  · intro hn
    rw [hcb, List.erase_of_not_mem hn]
  · rw [hcb, List.length_erase]
    split <;> omega
  · rw [hcb, List.count_erase_self]
  · intro c hne
    rw [hcb, List.count_erase_of_ne hne]
  · rw [hcb]
    exact List.erase_sublist h _

end chromeos_update_engine
